import Mathlib

/-!
Shallow embedding of the Moniezi receipt-OCR field-extraction pipeline.

Source files embedded here:
* `src/unnamed/part_000` — "Offline OCR Engine v3" (referred to as `v3` below);
* `src/unnamed/part_001` — "Offline OCR Engine v2" (referred to as `v2` below);
* `src/services/nativeOCR.ts` — the native OCR bridge (referred to as `native`);
* `src/services/offlineOCR.ts` — the Tesseract pipeline (referred to as `v1`
  below), of which the date selector `extractBestDate` is embedded.

Modelling conventions:
* JS strings are Lean `String`s; character-level work happens on `String.data`.
* JS numbers holding money amounts are modelled by `Dec`, an exact decimal
  `num / 10 ^ exp` kept in canonical form (no trailing zeros in the fraction).
  Every amount handled by the pipeline is a decimal with at most a handful of
  significant digits, a range in which IEEE-754 doubles represent distinct
  decimals distinctly and order-faithfully, so exact decimals are a faithful
  model of the JS comparisons, dedup and sorting performed by the source.
* `localStorage` is modelled by `KVStore`, a cell holding the parsed
  learned-merchant collection (the JSON (de)serialisation layer is elided:
  the source serialises and immediately re-parses the same well-typed data)
  together with failure-injection flags; each storage primitive either
  returns or throws, modelled by `Except Unit`.
* JS `try { … } catch { … }` is modelled by matching on the `Except` result.
* `Array.prototype.sort(cmp)` is modelled by `List.insertionSort` with the
  ordering induced by the comparator; none of the proved statements relies
  on stability.
* Regex scanning (`String.match` / `exec` with the `g` flag) is modelled by
  hand-written matchers for the exact patterns appearing in the source,
  including greedy matching with backtracking and `\b` word boundaries,
  driven left-to-right with a fuel parameter so that everything computes.
-/

namespace Moniezi

/-! ### Generic string helpers (JS built-ins) -/

/-- JS `hay.includes(needle)` on char lists: `needle` occurs contiguously in
`hay`.  `listIncludes [] hay = true`, matching JS. -/
def listIncludes (needle : List Char) : List Char → Bool
  | [] => needle.isEmpty
  | c :: t => needle.isPrefixOf (c :: t) || listIncludes needle t

/-- JS `hay.includes(needle)` on strings. -/
def jsIncludes (hay needle : String) : Bool :=
  listIncludes needle.data hay.data

/-- JS `String.prototype.toLowerCase` (ASCII range, which covers every string
the pipeline compares). -/
def jsToLower (s : String) : String :=
  String.mk (s.data.map Char.toLower)

/-- JS whitespace class (`\s` and the characters `trim` strips), restricted to
the ASCII whitespace actually occurring in OCR text. -/
def isJsWhitespace (c : Char) : Bool :=
  c == ' ' || c == '\t' || c == '\n' || c == '\r' || c == '\x0b' || c == '\x0c'

/-- JS `String.prototype.trim`. -/
def jsTrim (s : String) : String :=
  String.mk (((s.data.dropWhile isJsWhitespace).reverse.dropWhile isJsWhitespace).reverse)

/-- JS `s.split(sep)` for a single-character separator, on char lists. -/
def jsSplitChar (sep : Char) : List Char → List (List Char)
  | [] => [[]]
  | c :: t =>
    if c == sep then
      [] :: jsSplitChar sep t
    else
      match jsSplitChar sep t with
      | [] => [[c]]
      | h :: r => (c :: h) :: r

/-- Split a string into the list of its `sep`-separated pieces. -/
def jsSplit (sep : Char) (s : String) : List String :=
  (jsSplitChar sep s.data).map String.mk

/-- JS `s.replace(/c/g, '')`: drop every occurrence of a character. -/
def removeAllChar (c : Char) (l : List Char) : List Char :=
  l.filter (fun x => x != c)

/-- JS `s.replace(c, d)` for single characters: replace the first occurrence
only. -/
def replaceFirstChar (c d : Char) : List Char → List Char
  | [] => []
  | x :: t => if x == c then d :: t else x :: replaceFirstChar c d t

/-- JS `s.lastIndexOf(c)`: index of the last occurrence, `-1` if absent. -/
def lastIndexOfChar (c : Char) : List Char → Int
  | [] => -1
  | x :: t =>
    let r := lastIndexOfChar c t
    if r ≥ 0 then r + 1 else if x == c then 0 else -1

/-- First-occurrence deduplication, as performed by `[...new Set(xs)]`. -/
def jsSetDedup {α : Type} [DecidableEq α] (l : List α) : List α :=
  go [] l
where
  /-- Walk the list keeping the elements not seen before. -/
  go : List α → List α → List α
    | _, [] => []
    | seen, a :: t => if a ∈ seen then go seen t else a :: go (a :: seen) t

/-- Numeric value of a digit string (most significant first), as computed by
`parseInt` on an all-digit string. -/
def natOfDigits (l : List Char) : Nat :=
  l.foldl (fun n c => 10 * n + (c.toNat - '0'.toNat)) 0

/-- JS `parseInt` specialised to the capture groups fed to it by the source:
reads the leading run of decimal digits, `none` (NaN) if there is none. -/
def jsParseIntNat (s : String) : Option Nat :=
  let ds := s.data.takeWhile Char.isDigit
  if ds.isEmpty then none else some (natOfDigits ds)

/-! ### Exact decimals: the model of JS numbers holding amounts -/

/-- An exact nonnegative decimal `num / 10 ^ exp`.  Values are kept canonical
(`exp = 0` or `num % 10 ≠ 0`) by constructing them through `mkDec`, so that
structural equality coincides with numeric equality and models JS `===` on
the decimals the pipeline manipulates. -/
structure Dec where
  num : Nat
  exp : Nat
deriving DecidableEq, Repr

/-- Strip trailing fractional zeros (fuelled by the exponent). -/
def mkDecAux : Nat → Nat → Nat → Dec
  | 0, n, e => ⟨n, e⟩
  | f + 1, n, e =>
    if e = 0 then ⟨n, 0⟩
    else if n % 10 = 0 then mkDecAux f (n / 10) (e - 1)
    else ⟨n, e⟩

/-- Canonicalising constructor for `Dec`. -/
def mkDec (n e : Nat) : Dec := mkDecAux e n e

/-- Numeric order on decimals by cross multiplication. -/
def Dec.le (a b : Dec) : Prop := a.num * 10 ^ b.exp ≤ b.num * 10 ^ a.exp

/-- Strict numeric order on decimals. -/
def Dec.lt (a b : Dec) : Prop := a.num * 10 ^ b.exp < b.num * 10 ^ a.exp

instance : DecidableRel Dec.le := fun a b => Nat.decLe _ _

instance : DecidableRel Dec.lt := fun a b => Nat.decLt _ _

/-- Descending comparator: the order into which the source's
`sort((a, b) => b - a)` puts a list of amounts. -/
def decDesc (a b : Dec) : Prop := Dec.le b a

instance : DecidableRel decDesc := fun a b => Nat.decLe _ _

instance : IsTotal Dec decDesc := ⟨fun a b => Nat.le_total _ _⟩

instance : IsTrans Dec decDesc :=
  ⟨by
    intro a b c hab hbc
    unfold decDesc Dec.le at *
    have h3 : c.num * 10 ^ a.exp * 10 ^ b.exp ≤ a.num * 10 ^ c.exp * 10 ^ b.exp := by
      calc c.num * 10 ^ a.exp * 10 ^ b.exp
          = c.num * 10 ^ b.exp * 10 ^ a.exp := by ring
        _ ≤ b.num * 10 ^ c.exp * 10 ^ a.exp := Nat.mul_le_mul_right _ hbc
        _ = b.num * 10 ^ a.exp * 10 ^ c.exp := by ring
        _ ≤ a.num * 10 ^ b.exp * 10 ^ c.exp := Nat.mul_le_mul_right _ hab
        _ = a.num * 10 ^ c.exp * 10 ^ b.exp := by ring
    exact Nat.le_of_mul_le_mul_right h3 (Nat.pos_pow_of_pos _ (by norm_num))⟩

/-- The decimal zero. -/
def dec0 : Dec := ⟨0, 0⟩

/-- JS `Math.max` over decimals. -/
def Dec.max (a b : Dec) : Dec := if Dec.le a b then b else a

/-- JS `Math.max(...list)` over a nonempty parsed-amount list (head-seeded
fold, as spreading does). -/
def decListMax : List Dec → Dec
  | [] => dec0
  | a :: t => t.foldl Dec.max a

/-! ### Learned merchants and the storage layer

Both `part_000` (lines 488-525) and `part_001` (lines 150-193) define the same
`LearnedMerchant` record, `getLearnedMerchants` and `saveLearnedMerchant`;
they differ only in `clearLearnedMerchants`, which `part_001` wraps in
`try`/`catch` and `part_000` does not. -/

/-- A user-confirmed merchant → category association (`LearnedMerchant`). -/
structure LearnedMerchant where
  name : String
  category : String
  timesUsed : Nat
  lastUsed : String
deriving DecidableEq, Repr

/-- The merchant-name normalisation `name.toLowerCase().trim()` performed by
`saveLearnedMerchant`. -/
def normalizeName (s : String) : String := jsTrim (jsToLower s)

/-- A `localStorage` cell for the learned-merchant key, with failure
injection for each primitive. -/
structure KVStore where
  value : Option (List LearnedMerchant)
  getFails : Bool
  setFails : Bool
  removeFails : Bool
deriving DecidableEq, Repr

/-- `localStorage.getItem(LEARNED_MERCHANTS_KEY)`: may throw. -/
def KVStore.getItem (s : KVStore) : Except Unit (Option (List LearnedMerchant)) :=
  if s.getFails then .error () else .ok s.value

/-- `localStorage.setItem(LEARNED_MERCHANTS_KEY, …)`: may throw. -/
def KVStore.setItem (s : KVStore) (v : List LearnedMerchant) : Except Unit KVStore :=
  if s.setFails then .error () else .ok { s with value := some v }

/-- `localStorage.removeItem(LEARNED_MERCHANTS_KEY)`: may throw. -/
def KVStore.removeItem (s : KVStore) : Except Unit KVStore :=
  if s.removeFails then .error () else .ok { s with value := none }

/-- `getLearnedMerchants` (identical in `part_000` and `part_001`): reads the
stored collection, returning `[]` on a missing key or a storage failure
(the whole body is wrapped in `try`/`catch`). -/
def getLearnedMerchants (s : KVStore) : List LearnedMerchant :=
  match s.getItem with
  | .ok (some l) => l
  | .ok none => []
  | .error _ => []

/-- The comparator `(a, b) => b.timesUsed - a.timesUsed` used by
`saveLearnedMerchant`: sort descending by `timesUsed`. -/
def byUsedDesc (a b : LearnedMerchant) : Prop := b.timesUsed ≤ a.timesUsed

instance : DecidableRel byUsedDesc := fun a b => Nat.decLe _ _

instance : IsTotal LearnedMerchant byUsedDesc := ⟨fun a b => Nat.le_total _ _⟩

instance : IsTrans LearnedMerchant byUsedDesc :=
  ⟨fun _ _ _ hab hbc => Nat.le_trans hbc hab⟩

/-- Predicate of the `merchants.find(m => m.name.toLowerCase() === normalized)`
lookup inside `saveLearnedMerchant`. -/
def sameNormalizedName (normalized : String) (m : LearnedMerchant) : Bool :=
  jsToLower m.name == normalized

/-- Mutate the first element satisfying `p` (JS `find` returns a reference
that the source then mutates in place). -/
def updateFirst {α : Type} (p : α → Bool) (f : α → α) : List α → List α
  | [] => []
  | a :: t => if p a then f a :: t else a :: updateFirst p f t

/-- The in-memory collection produced by `saveLearnedMerchant` before
sorting: update the existing entry or push a fresh one
(`part_000` lines 499-514 / `part_001` lines 161-176).  `now` stands for
`new Date().toISOString()`. -/
def saveUpdatedList (s : KVStore) (name category now : String) : List LearnedMerchant :=
  let merchants := getLearnedMerchants s
  let normalized := normalizeName name
  match merchants.find? (sameNormalizedName normalized) with
  | some _ =>
    updateFirst (sameNormalizedName normalized)
      (fun m => { m with category := category, timesUsed := m.timesUsed + 1, lastUsed := now })
      merchants
  | none =>
    merchants ++ [{ name := normalized, category := category, timesUsed := 1, lastUsed := now }]

/-- The collection after `merchants.sort((a, b) => b.timesUsed - a.timesUsed)`. -/
def saveSortedList (s : KVStore) (name category now : String) : List LearnedMerchant :=
  (saveUpdatedList s name category now).insertionSort byUsedDesc

/-- The body of `saveLearnedMerchant` up to and including
`localStorage.setItem(KEY, JSON.stringify(merchants.slice(0, 500)))`; the
only primitive in it that can throw is `setItem`. -/
def saveLearnedMerchantBody (s : KVStore) (name category now : String) :
    Except Unit KVStore :=
  s.setItem ((saveSortedList s name category now).take 500)

/-- `saveLearnedMerchant` (identical in `part_000` lines 497-521 and
`part_001` lines 159-185): the whole body runs in `try`/`catch`, a caught
failure leaves the store untouched and is only logged. -/
def saveLearnedMerchant (s : KVStore) (name category now : String) :
    Except Unit KVStore :=
  match saveLearnedMerchantBody s name category now with
  | .ok s' => .ok s'
  | .error _ => .ok s

/-- The store state after a `saveLearnedMerchant` call (the call never
throws, see `saveLearnedMerchant`; the `error` arm is unreachable). -/
def storeAfterSave (s : KVStore) (name category now : String) : KVStore :=
  match saveLearnedMerchant s name category now with
  | .ok s' => s'
  | .error _ => s

/-- `clearLearnedMerchants` from `part_000` (lines 523-525): a bare
`localStorage.removeItem` with no `try`/`catch`. -/
def clearLearnedMerchants_v3 (s : KVStore) : Except Unit KVStore :=
  s.removeItem

/-- `clearLearnedMerchants` from `part_001` (lines 187-193): the
`removeItem` is wrapped in `try`/`catch`, a caught failure leaves the store
untouched. -/
def clearLearnedMerchants_v2 (s : KVStore) : Except Unit KVStore :=
  match s.removeItem with
  | .ok s' => .ok s'
  | .error _ => .ok s

/-- A store with nothing persisted and reliable primitives. -/
def emptyStore : KVStore := ⟨none, false, false, false⟩

/-- Apply a sequence of corrections left to right (each through
`saveLearnedMerchant`, with a fixed category and timestamp). -/
def saveSeq (names : List String) (s : KVStore) : KVStore :=
  names.foldl (fun st nm => storeAfterSave st nm "Custom Food" "2026-02-03") s

/-- The `i`-th of a family of pairwise-distinct normalised merchant names:
`i + 1` letters `a`. -/
def aName (i : Nat) : String := String.mk (List.replicate (i + 1) 'a')

/-- 501 distinct merchant names for the eviction test. -/
def names501 : List String := (List.range 501).map aName

/-! ### Amount parsing

`part_000` lines 759-806 (`extractAllAmounts`, three regex patterns),
`part_001` lines 258-289 (`extractAllAmounts`, one regex pattern) and
`src/services/nativeOCR.ts` lines 344-377 (inline in `extractTotals`) share
the same separator-normalisation logic; `part_000` additionally requires the
comma-only token to split into exactly two parts. -/

/-- `match[1].replace(/\s/g, '')`. -/
def stripSpaces (l : List Char) : List Char :=
  l.filter (fun c => !isJsWhitespace c)

/-- Separator normalisation of one money token, `part_000` lines 776-795:
with both `.` and `,` the later separator becomes the decimal point (but
`replace(',', '.')` rewrites only the first comma); with `,` only, the comma
is decimal iff the token splits into exactly two parts and the second has
length 2. -/
def sepNormalize_v3 (l : List Char) : List Char :=
  if l.contains '.' && l.contains ',' then
    if lastIndexOfChar ',' l > lastIndexOfChar '.' l then
      replaceFirstChar ',' '.' (removeAllChar '.' l)
    else
      removeAllChar ',' l
  else if l.contains ',' then
    match jsSplitChar ',' l with
    | [_, p1] => if p1.length == 2 then replaceFirstChar ',' '.' l else removeAllChar ',' l
    | _ => removeAllChar ',' l
  else l

/-- Separator normalisation used by `part_001` lines 267-280 and
`nativeOCR.ts` lines 356-374: same two-separator rule, but comma-only tokens
are decimal iff the part after the last comma has length 2. -/
def sepNormalize_native (l : List Char) : List Char :=
  if l.contains '.' && l.contains ',' then
    if lastIndexOfChar ',' l > lastIndexOfChar '.' l then
      replaceFirstChar ',' '.' (removeAllChar '.' l)
    else
      removeAllChar ',' l
  else if l.contains ',' then
    match (jsSplitChar ',' l).getLast? with
    | some lastPart =>
      if lastPart.length == 2 then replaceFirstChar ',' '.' l else removeAllChar ',' l
    | none => removeAllChar ',' l
  else l

/-- Split off the leading run of decimal digits. -/
def spanDigits : List Char → List Char × List Char
  | [] => ([], [])
  | c :: t =>
    if c.isDigit then
      let p := spanDigits t
      (c :: p.1, p.2)
    else ([], c :: t)

/-- JS `parseFloat` on the normalised tokens the source feeds it: a leading
run of digits, optionally a dot and a further run of digits; parsing stops at
the first other character; NaN (`none`) when no digit was consumed. -/
def jsParseFloat (l : List Char) : Option Dec :=
  match (spanDigits l).2 with
  | '.' :: r2 =>
    if (spanDigits l).1.isEmpty && (spanDigits r2).1.isEmpty then none
    else
      some (mkDec
        (natOfDigits (spanDigits l).1 * 10 ^ (spanDigits r2).1.length +
          natOfDigits (spanDigits r2).1)
        (spanDigits r2).1.length)
  | _ =>
    if (spanDigits l).1.isEmpty then none else some (mkDec (natOfDigits (spanDigits l).1) 0)

/-- Full treatment of one matched token in `part_000` `extractAllAmounts`:
strip whitespace, normalise separators, `parseFloat`. -/
def parseAmountToken_v3 (t : String) : Option Dec :=
  jsParseFloat (sepNormalize_v3 (stripSpaces t.data))

/-- Full treatment of one matched token in `part_001` `extractAllAmounts`
and in the keyword loop of `nativeOCR.ts` `extractTotals`. -/
def parseAmountToken_native (t : String) : Option Dec :=
  jsParseFloat (sepNormalize_native (stripSpaces t.data))

/-- Everything `part_000` `extractAllAmounts` does after regex matching:
parse each token, keep values in `(0, 100000)`, dedup (`new Set`), sort
descending (lines 797-805). -/
def extractAllAmountsCore_v3 (tokens : List String) : List Dec :=
  let amounts := tokens.filterMap (fun t =>
    match parseAmountToken_v3 t with
    | some num => if Dec.lt dec0 num ∧ Dec.lt num (mkDec 100000 0) then some num else none
    | none => none)
  (jsSetDedup amounts).insertionSort decDesc

/-- Everything `part_001` `extractAllAmounts` does after regex matching
(lines 282-288), identical to `v3` except for the token normalisation. -/
def extractAllAmountsCore_v2 (tokens : List String) : List Dec :=
  let amounts := tokens.filterMap (fun t =>
    match parseAmountToken_native t with
    | some num => if Dec.lt dec0 num ∧ Dec.lt num (mkDec 100000 0) then some num else none
    | none => none)
  (jsSetDedup amounts).insertionSort decDesc

/-- The character of a decimal digit. -/
def dchar (d : Fin 10) : Char := Char.ofNat (48 + d.val)

/-- A digit segment rendered as characters. -/
def dstr (l : List (Fin 10)) : List Char := l.map dchar

/-- Numeric value of a digit segment. -/
def digitsVal (l : List (Fin 10)) : Nat := l.foldl (fun n d => 10 * n + d.val) 0

/-- Modelled from the spec (§4.1/§8): "If both are present, the separator
that occurs last in the string is treated as the decimal point; the other is
stripped as a thousands separator."  After whitespace stripping, the digits
before the last separator occurrence form the integer part and the
characters after it the fraction; with no separator the token is parsed as
is.  This reading of the claim appears in no source file; it is defined only
to compare the code against the claim. -/
def specAmountValue (t : String) : Option Dec :=
  let l := stripSpaces t.data
  let n := max (lastIndexOfChar '.' l) (lastIndexOfChar ',' l)
  if n < 0 then jsParseFloat l
  else
    some (mkDec
      (natOfDigits ((l.take n.toNat).filter Char.isDigit) *
          10 ^ (l.drop (n.toNat + 1)).length +
        natOfDigits (l.drop (n.toNat + 1)))
      (l.drop (n.toNat + 1)).length)

/-! ### Regex-scan models for the amount patterns -/

/-- JS `\w` (ASCII word character), used for `\b` boundaries. -/
def isWordChar (c : Char) : Bool := c.isAlpha || c.isDigit || c == '_'

/-- Trailing `\b` after a word character: next char absent or not a word
character. -/
def boundaryAfter : List Char → Bool
  | [] => true
  | c :: _ => !isWordChar c

/-- Leading `\b` before a word character: previous char absent or not a word
character. -/
def boundaryBefore : Option Char → Bool
  | none => true
  | some c => !isWordChar c

/-- Take exactly `n` digits. -/
def takeDigits : Nat → List Char → Option (List Char × List Char)
  | 0, l => some ([], l)
  | _ + 1, [] => none
  | n + 1, c :: t =>
    if c.isDigit then (takeDigits n t).map (fun p => (c :: p.1, p.2)) else none

/-- Character class `[,.\s]` of the thousands-group separator. -/
def isGroupSep (c : Char) : Bool := c == ',' || c == '.' || isJsWhitespace c

/-- All ways the greedy group `(?:[,.\s]\d{3})*` can match a prefix, longest
(most repetitions) first — the order a backtracking regex engine explores. -/
def groupSepSplits : List Char → List (List Char × List Char)
  | s :: a :: b :: c :: rest =>
    if isGroupSep s && a.isDigit && b.isDigit && c.isDigit then
      ((groupSepSplits rest).map (fun p => (s :: a :: b :: c :: p.1, p.2))) ++
        [([], s :: a :: b :: c :: rest)]
    else [([], s :: a :: b :: c :: rest)]
  | l => [([], l)]

/-- One left-to-right pass of a `g`-flagged regex: at each position try the
pattern matcher `step` (which reports the capture and the number of consumed
characters); on a match resume after it, otherwise move one character.  The
fuel is the string length, enough for matchers that consume at least one
character. -/
def scanAll {γ : Type} (step : Option Char → List Char → Option (γ × Nat)) :
    Nat → Option Char → List Char → List γ
  | 0, _, _ => []
  | _ + 1, _, [] => []
  | fuel + 1, prev, c :: rest =>
    match step prev (c :: rest) with
    | some (cap, n) =>
      cap :: scanAll step fuel (((c :: rest).take n).getLast?) ((c :: rest).drop n)
    | none => scanAll step fuel (some c) rest

/-- Run a `g`-flagged scan over a string. -/
def runScan {γ : Type} (step : Option Char → List Char → Option (γ × Nat))
    (s : String) : List γ :=
  scanAll step (s.data.length + 1) none s.data

/-- Leftmost match of a non-global regex (JS `text.match(pattern)` without
the `g` flag). -/
def findFirstMatch {γ : Type} (step : Option Char → List Char → Option (γ × Nat)) :
    Nat → Option Char → List Char → Option γ
  | 0, _, _ => none
  | _ + 1, _, [] => none
  | fuel + 1, prev, c :: rest =>
    match step prev (c :: rest) with
    | some (cap, _) => some cap
    | none => findFirstMatch step fuel (some c) rest

/-- Find the leftmost match in a string. -/
def runFindFirst {γ : Type} (step : Option Char → List Char → Option (γ × Nat))
    (s : String) : Option γ :=
  findFirstMatch step (s.data.length + 1) none s.data

/-- Matcher for `part_000` amount pattern 1,
`(\d{1,3}(?:[,.\s]\d{3})*[.,]\d{2})\b`: greedy `\d{1,3}` and group star with
backtracking against the required decimal tail and trailing `\b`. -/
def amountStep_v3p1 (_prev : Option Char) (l : List Char) : Option (List Char × Nat) :=
  List.findSome? (fun n1 =>
    (takeDigits n1 l).bind (fun p1 =>
      List.findSome? (fun sp =>
        match sp.2 with
        | s2 :: x :: y :: r5 =>
          if (s2 == '.' || s2 == ',') && x.isDigit && y.isDigit && boundaryAfter r5 then
            some (p1.1 ++ sp.1 ++ [s2, x, y], n1 + sp.1.length + 3)
          else none
        | _ => none) (groupSepSplits p1.2))) [3, 2, 1]

/-- Currency symbol class `[$€£¥]`. -/
def isCurrencySym (c : Char) : Bool := c == '$' || c == '€' || c == '£' || c == '¥'

/-- Matcher for `part_000` amount pattern 2, `[$€£¥]\s*(\d+[.,]\d{2})`;
the capture is the number only. -/
def amountStep_v3p2 (_prev : Option Char) (l : List Char) : Option (List Char × Nat) :=
  match l with
  | [] => none
  | sym :: r1 =>
    if isCurrencySym sym then
      let ws := r1.takeWhile isJsWhitespace
      let r2 := r1.drop ws.length
      let p := spanDigits r2
      if p.1.isEmpty then none
      else
        match p.2 with
        | s :: x :: y :: _ =>
          if (s == '.' || s == ',') && x.isDigit && y.isDigit then
            some (p.1 ++ [s, x, y], 1 + ws.length + p.1.length + 3)
          else none
        | _ => none
    else none

/-- Matcher for `part_000` amount pattern 3, `(\d+[.,]\d{2})\s*[$€£¥]`. -/
def amountStep_v3p3 (_prev : Option Char) (l : List Char) : Option (List Char × Nat) :=
  let p := spanDigits l
  if p.1.isEmpty then none
  else
    match p.2 with
    | s :: x :: y :: r2 =>
      if (s == '.' || s == ',') && x.isDigit && y.isDigit then
        let ws := r2.takeWhile isJsWhitespace
        match r2.drop ws.length with
        | sym :: _ =>
          if isCurrencySym sym then
            some (p.1 ++ [s, x, y], p.1.length + 3 + ws.length + 1)
          else none
        | [] => none
      else none
    | _ => none

/-- All tokens found by the three patterns of `part_000`
`extractAllAmounts`, in pattern-major order (the source loops over the
patterns, scanning the whole text with each). -/
def v3AmountTokens (text : String) : List String :=
  ((runScan amountStep_v3p1 text) ++ (runScan amountStep_v3p2 text) ++
    (runScan amountStep_v3p3 text)).map String.mk

/-- `part_000` `extractAllAmounts` (lines 759-806). -/
def extractAllAmounts_v3 (text : String) : List Dec :=
  extractAllAmountsCore_v3 (v3AmountTokens text)

/-- Matcher for the single amount pattern of `part_001`/`nativeOCR.ts`,
`(\d{1,3}(?:[,.\s]\d{3})*(?:[.,]\d{2})?)`: everything after the leading
digits is optional, so greedy matching never backtracks. -/
def amountStep_native (_prev : Option Char) (l : List Char) : Option (List Char × Nat) :=
  List.findSome? (fun n1 =>
    (takeDigits n1 l).map (fun p1 =>
      let sp := (groupSepSplits p1.2).headD ([], p1.2)
      match sp.2 with
      | s :: x :: y :: _ =>
        if (s == '.' || s == ',') && x.isDigit && y.isDigit then
          (p1.1 ++ sp.1 ++ [s, x, y], n1 + sp.1.length + 3)
        else (p1.1 ++ sp.1, n1 + sp.1.length)
      | _ => (p1.1 ++ sp.1, n1 + sp.1.length))) [3, 2, 1]

/-- `text.match(amountPattern)` for the `part_001`/`nativeOCR.ts` pattern. -/
def nativeAmountTokens (text : String) : List String :=
  (runScan amountStep_native text).map String.mk

/-- `part_001` `extractAllAmounts` (lines 258-289). -/
def extractAllAmounts_v2 (text : String) : List Dec :=
  extractAllAmountsCore_v2 (nativeAmountTokens text)

/-! ### Field locator: totals extraction -/

/-- `TOTAL_KEYWORDS` of `part_000` (lines 364-383), in declaration order. -/
def TOTAL_KEYWORDS_v3 : List String :=
  ["grand total", "total due", "amount due", "balance due", "total amount", "total", "amount",
   "gesamtsumme", "gesamt", "summe", "endsumme", "zu zahlen", "betrag",
   "totale", "totale dovuto", "importo", "importo totale",
   "total", "montant", "montant total", "total ttc", "a payer",
   "total", "importe", "importe total", "total a pagar",
   "totaal", "totaalbedrag", "te betalen",
   "totali", "shuma", "vlera", "paguar",
   "suma", "razem", "do zapłaty",
   "total", "valor total"]

/-- `SUBTOTAL_KEYWORDS` of `part_000` (lines 385-394). -/
def SUBTOTAL_KEYWORDS_v3 : List String :=
  ["subtotal", "sub-total", "sub total", "netto", "net",
   "zwischensumme", "nettobetrag",
   "subtotale", "imponibile",
   "sous-total", "ht",
   "subtotal", "base imponible",
   "subtotaal",
   "nëntotali", "nentotali",
   "suma netto"]

/-- `TAX_KEYWORDS` of `part_000` (lines 396-406). -/
def TAX_KEYWORDS_v3 : List String :=
  ["tax", "sales tax", "vat", "gst", "hst", "pst",
   "mwst", "ust", "mehrwertsteuer",
   "iva",
   "tva",
   "iva", "igic",
   "btw",
   "tvsh",
   "vat", "podatek",
   "iva"]

/-- The result record of a totals extraction. -/
structure TotalsResult where
  total : Option Dec
  subtotal : Option Dec
  tax : Option Dec
deriving DecidableEq, Repr

/-- JS `x || y` on a nullable number: `y` when `x` is `null` or `0`. -/
def jsOrNum (x : Option Dec) (d : Dec) : Dec :=
  match x with
  | some v => if v.num == 0 then d else v
  | none => d

/-- One line of the keyword loop in `part_000` `extractTotals`
(lines 816-851): the three checks run independently on the same line, the
tax bound reads the just-updated `total`. -/
def totalsLineStep_v3 (allAmounts : List Dec) (acc : TotalsResult) (line : String) :
    TotalsResult :=
  let lineAmounts := extractAllAmounts_v3 line
  match lineAmounts with
  | [] => acc
  | amount :: _ =>
    let total :=
      if acc.total.isNone
          && TOTAL_KEYWORDS_v3.any (fun k => jsIncludes line k && !jsIncludes line "sub") then
        some amount
      else acc.total
    let subtotal :=
      if acc.subtotal.isNone && SUBTOTAL_KEYWORDS_v3.any (fun k => jsIncludes line k) then
        some amount
      else acc.subtotal
    let tax :=
      if acc.tax.isNone
          && TAX_KEYWORDS_v3.any (fun k =>
            jsIncludes line k &&
              decide (Dec.lt amount (jsOrNum total (jsOrNum allAmounts.head? (mkDec 1000 0))))) then
        some amount
      else acc.tax
    ⟨total, subtotal, tax⟩

/-- The total fallback of `part_000` `extractTotals` (lines 853-856): when
no keyword produced a total, the largest extracted amount (the head of the
descending `allAmounts`) becomes the total. -/
def totalsFallback (allAmounts : List Dec) (total : Option Dec) : Option Dec :=
  match total, allAmounts with
  | none, a :: _ => some a
  | t, _ => t

/-- Post-processing of `part_000` `extractTotals` (lines 853-862): total
fallback, then swap `total` and `subtotal` when `subtotal > total`. -/
def totalsPost_v3 (allAmounts : List Dec) (r : TotalsResult) : TotalsResult :=
  match totalsFallback allAmounts r.total, r.subtotal with
  | some t, some s =>
    if Dec.lt t s then ⟨some s, some t, r.tax⟩
    else ⟨totalsFallback allAmounts r.total, r.subtotal, r.tax⟩
  | _, _ => ⟨totalsFallback allAmounts r.total, r.subtotal, r.tax⟩

/-- `part_000` `extractTotals` (lines 808-865). -/
def extractTotals_v3 (text : String) (allAmounts : List Dec) : TotalsResult :=
  let lines := jsSplit '\n' (jsToLower text)
  totalsPost_v3 allAmounts (lines.foldl (totalsLineStep_v3 allAmounts) ⟨none, none, none⟩)

/-- A positioned text block of the OCR engine contract. -/
structure TextBlock where
  text : String
  confidence : ℚ
  x : ℚ
  y : ℚ
  width : ℚ
  height : ℚ
deriving DecidableEq, Repr

/-- A named region of the OCR result (`nativeOCR.ts` `RegionResult`). -/
structure RegionResult where
  text : String
  confidence : ℚ
  blocks : List TextBlock
deriving DecidableEq, Repr

/-- `totalKeywords` local to `nativeOCR.ts` `extractTotals` (lines 323-327). -/
def totalKeywords_native : List String :=
  ["grand total", "total due", "amount due", "balance due", "total",
   "totale", "totali", "gesamt", "summe", "total a pagar", "montant",
   "totaal", "suma", "итого", "razem", "celkem"]

/-- `subtotalKeywords` local to `nativeOCR.ts` `extractTotals` (lines 329-332). -/
def subtotalKeywords_native : List String :=
  ["subtotal", "sub-total", "sub total", "netto", "nëntotali",
   "sottototal", "zwischensumme", "subtotaal", "podzbiór"]

/-- `taxKeywords` local to `nativeOCR.ts` `extractTotals` (lines 334-337). -/
def taxKeywords_native : List String :=
  ["tax", "vat", "gst", "hst", "pst", "mwst", "iva", "tva",
   "tvsh", "imposto", "mehrwertsteuer", "btw", "podatek"]

/-- One line of the keyword loop in `nativeOCR.ts` `extractTotals`
(lines 346-400): parse every amount on the line (keeping positives, with no
upper bound), take the largest, then the three keyword checks chained with
`continue`. -/
def totalsLineStep_native (acc : TotalsResult) (line : String) : TotalsResult :=
  match nativeAmountTokens line with
  | [] => acc
  | amounts =>
    let parsedAmounts := amounts.filterMap (fun a =>
      match parseAmountToken_native a with
      | some n => if Dec.lt dec0 n then some n else none
      | none => none)
    match parsedAmounts with
    | [] => acc
    | ps =>
      let amount := decListMax ps
      if acc.total.isNone && totalKeywords_native.any (fun k => jsIncludes line k) then
        { acc with total := some amount }
      else if acc.subtotal.isNone && subtotalKeywords_native.any (fun k => jsIncludes line k) then
        { acc with subtotal := some amount }
      else if acc.tax.isNone && taxKeywords_native.any (fun k => jsIncludes line k) then
        { acc with tax := some amount }
      else acc

/-- Amount normalisation of the no-keyword fallback in `nativeOCR.ts`
`extractTotals` (lines 406-414): strip whitespace, turn every comma into a
dot, and with more than one dot rejoin everything before the last one. -/
def nativeFallbackParse (t : String) : Option Dec :=
  let n := (stripSpaces t.data).map (fun c => if c == ',' then '.' else c)
  let parts := jsSplitChar '.' n
  let n2 :=
    if parts.length > 2 then
      match parts.reverse with
      | lastPart :: restRev => restRev.reverse.flatten ++ '.' :: lastPart
      | [] => n
    else n
  jsParseFloat n2

/-- `nativeOCR.ts` `extractTotals` (lines 318-424).  Note: it performs no
`subtotal > total` swap. -/
def extractTotals_native (bottomRegion : RegionResult) (fullText : String) : TotalsResult :=
  let text := jsToLower (bottomRegion.text ++ "\n" ++ fullText)
  let lines := jsSplit '\n' text
  let r := lines.foldl totalsLineStep_native ⟨none, none, none⟩
  if r.total.isNone then
    match nativeAmountTokens bottomRegion.text with
    | [] => r
    | allAmounts =>
      let parsed := allAmounts.filterMap (fun a =>
        match nativeFallbackParse a with
        | some n => if Dec.lt dec0 n then some n else none
        | none => none)
      match parsed with
      | [] => r
      | ps => { r with total := some (decListMax ps) }
  else r

/-! ### Date parsing

`part_000` lines 867-933 (`extractAllDates`, four `g`-flagged patterns with
word boundaries) and `nativeOCR.ts` lines 427-493 (`extractDate`, five
non-global patterns, first match per pattern). -/

/-- A captured day/month/year (or year/month/day, or month-name/day/year)
triple, i.e. `match[1]`, `match[2]`, `match[3]`. -/
structure DateCaps where
  m1 : String
  m2 : String
  m3 : String
deriving DecidableEq, Repr

/-- A processed calendar date candidate. -/
structure YMD where
  year : Nat
  month : Nat
  day : Nat
deriving DecidableEq, Repr

/-- Separator class `[\.\/\-]` of the `part_000` date patterns. -/
def isDateSep3 (c : Char) : Bool := c == '.' || c == '/' || c == '-'

/-- Separator class `[\.\/]` of the `nativeOCR.ts` date patterns. -/
def isDateSep2 (c : Char) : Bool := c == '.' || c == '/'

/-- Shared matcher shape `(\d{1,2})sep(\d{1,2})sep(\d{k})` with configurable
separator class, year width, word boundaries and digit lookahead, covering
every numeric date pattern of both files.  `\d{1,2}` is greedy with
backtracking (two digits first). -/
def numericDateStep (sep : Char → Bool) (yearLen : Nat) (useBounds : Bool)
    (noDigitAfter : Bool) (prev : Option Char) (l : List Char) :
    Option (DateCaps × Nat) :=
  if useBounds && !boundaryBefore prev then none
  else
    List.findSome? (fun n1 =>
      (takeDigits n1 l).bind (fun p1 =>
        match p1.2 with
        | s1 :: r2 =>
          if sep s1 then
            List.findSome? (fun n2 =>
              (takeDigits n2 r2).bind (fun p2 =>
                match p2.2 with
                | s2 :: r4 =>
                  if sep s2 then
                    (takeDigits yearLen r4).bind (fun py =>
                      if (useBounds && !boundaryAfter py.2)
                          || (noDigitAfter &&
                              match py.2 with
                              | c :: _ => c.isDigit
                              | [] => false) then
                        none
                      else
                        some (⟨String.mk p1.1, String.mk p2.1, String.mk py.1⟩,
                          n1 + 1 + n2 + 1 + yearLen))
                  else none
                | [] => none)) [2, 1]
          else none
        | [] => none)) [2, 1]

/-- Matcher for the ISO pattern `(\d{4})-(\d{2})-(\d{2})`, with or without
surrounding `\b`. -/
def isoDateStep (useBounds : Bool) (prev : Option Char) (l : List Char) :
    Option (DateCaps × Nat) :=
  if useBounds && !boundaryBefore prev then none
  else
    (takeDigits 4 l).bind (fun py =>
      match py.2 with
      | '-' :: r2 =>
        (takeDigits 2 r2).bind (fun pm =>
          match pm.2 with
          | '-' :: r4 =>
            (takeDigits 2 r4).bind (fun pd =>
              if useBounds && !boundaryAfter pd.2 then none
              else some (⟨String.mk py.1, String.mk pm.1, String.mk pd.1⟩, 4 + 1 + 2 + 1 + 2))
          | _ => none)
      | _ => none)

/-- The twelve month-name alternatives, in pattern order. -/
def monthNames : List String :=
  ["jan", "feb", "mar", "apr", "may", "jun", "jul", "aug", "sep", "oct", "nov", "dec"]

/-- Case-insensitive literal match, returning the consumed text as written. -/
def matchCaseInsensitive : List Char → List Char → Option (List Char × List Char)
  | [], l => some ([], l)
  | _ :: _, [] => none
  | p :: ps, c :: cs =>
    if Char.toLower c == p then
      (matchCaseInsensitive ps cs).map (fun q => (c :: q.1, q.2))
    else none

/-- Matcher for the textual pattern
`(jan|feb|…)[a-z]*\.?\s+(\d{1,2}),?\s+(\d{4})` with the `i` flag
(`part_000` also has a leading `\b`; `nativeOCR.ts` does not). -/
def monthNameDateStep (useBounds : Bool) (prev : Option Char) (l : List Char) :
    Option (DateCaps × Nat) :=
  if useBounds && !boundaryBefore prev then none
  else
    (List.findSome? (fun nm => matchCaseInsensitive nm.data l) monthNames).bind
      (fun pm =>
        let letters := pm.2.takeWhile Char.isAlpha
        let r2 := pm.2.drop letters.length
        let dotLen := match r2 with
          | '.' :: _ => 1
          | _ => 0
        let r3 := r2.drop dotLen
        let ws1 := r3.takeWhile isJsWhitespace
        if ws1.isEmpty then none
        else
          let r4 := r3.drop ws1.length
          List.findSome? (fun nd =>
            (takeDigits nd r4).bind (fun pd =>
              let commaLen := match pd.2 with
                | ',' :: _ => 1
                | _ => 0
              let r5 := pd.2.drop commaLen
              let ws2 := r5.takeWhile isJsWhitespace
              if ws2.isEmpty then none
              else
                (takeDigits 4 (r5.drop ws2.length)).map (fun py =>
                  (⟨String.mk pm.1, String.mk pd.1, String.mk py.1⟩,
                    3 + letters.length + dotLen + ws1.length + nd + commaLen +
                      ws2.length + 4)))) [2, 1])

/-- All raw matches of the four `part_000` date patterns, in pattern-major
order (lines 870-879). -/
def v3DateMatches (text : String) : List DateCaps :=
  (runScan (numericDateStep isDateSep3 4 true false) text) ++
    (runScan (numericDateStep isDateSep3 2 true false) text) ++
    (runScan (isoDateStep true) text) ++
    (runScan (monthNameDateStep true) text)

/-- The `monthMap` of both files. -/
def monthMap : List (String × Nat) :=
  [("jan", 1), ("feb", 2), ("mar", 3), ("apr", 4), ("may", 5), ("jun", 6),
   ("jul", 7), ("aug", 8), ("sep", 9), ("oct", 10), ("nov", 11), ("dec", 12)]

/-- `monthMap[key]` lookup. -/
def monthLookup (s : String) : Option Nat :=
  (monthMap.find? (fun p => p.1 == s)).map (fun p => p.2)

/-- `match[1].toLowerCase().slice(0, 3)`. -/
def lowerSlice3 (s : String) : String :=
  String.mk ((jsToLower s).data.take 3)

/-- The numeric-triplet branch shared verbatim by `part_000` (lines 903-919)
and `nativeOCR.ts` (lines 463-480): day-first reading, two-digit years map
to 19xx above 50 and 20xx otherwise, month/day swapped when only the second
field exceeds 12. -/
def processNumericDate (c : DateCaps) : YMD :=
  let day0 := (jsParseIntNat c.m1).getD 0
  let month0 := (jsParseIntNat c.m2).getD 0
  let yr := (jsParseIntNat c.m3).getD 0
  let year := if yr < 100 then (if yr > 50 then 1900 + yr else 2000 + yr) else yr
  if day0 > 12 ∧ month0 ≤ 12 then ⟨year, month0, day0⟩
  else if month0 > 12 ∧ day0 ≤ 12 then ⟨year, day0, month0⟩
  else ⟨year, month0, day0⟩

/-- The ISO branch of both files. -/
def processIsoDate (c : DateCaps) : YMD :=
  ⟨(jsParseIntNat c.m1).getD 0, (jsParseIntNat c.m2).getD 0, (jsParseIntNat c.m3).getD 0⟩

/-- The month-name branch of `part_000` (lines 898-902): a failed map lookup
falls back to month 1 (`|| 1`). -/
def processMonthNameDate_v3 (c : DateCaps) : YMD :=
  ⟨(jsParseIntNat c.m3).getD 0, (monthLookup (lowerSlice3 c.m1)).getD 1,
    (jsParseIntNat c.m2).getD 0⟩

/-- The month-name branch of `nativeOCR.ts` (lines 453-457): no fallback, a
failed lookup leaves an undefined month (modelled as 0, which the validity
filter rejects just as NaN does). -/
def processMonthNameDate_native (c : DateCaps) : YMD :=
  ⟨(jsParseIntNat c.m3).getD 0, (monthLookup (lowerSlice3 c.m1)).getD 0,
    (jsParseIntNat c.m2).getD 0⟩

/-- The branch dispatch of `part_000` (lines 893-920): ISO when the first
capture has four characters, month-name when it does not parse as a number,
numeric otherwise. -/
def processDateMatch_v3 (c : DateCaps) : YMD :=
  if c.m1.data.length == 4 then processIsoDate c
  else if (jsParseIntNat c.m1).isNone then processMonthNameDate_v3 c
  else processNumericDate c

/-- The validity filter shared by both files (`part_000` line 923,
`nativeOCR.ts` line 484): month 1-12, day 1-31, year 2020-2030, and nothing
else. -/
def validDate (t : YMD) : Bool :=
  1 ≤ t.month && t.month ≤ 12 && 1 ≤ t.day && t.day ≤ 31 &&
    2020 ≤ t.year && t.year ≤ 2030

/-- `n.toString().padStart(2, '0')` for the month/day fields. -/
def pad2 (n : Nat) : String :=
  if n < 10 then "0" ++ toString n else toString n

/-- The ISO output format `year-MM-DD` built by both files. -/
def formatDate (t : YMD) : String :=
  toString t.year ++ "-" ++ pad2 t.month ++ "-" ++ pad2 t.day

/-- `part_000` `extractAllDates` (lines 867-933): process every match of
every pattern, keep the valid ones, dedup preserving first occurrence. -/
def extractAllDates_v3 (text : String) : List String :=
  jsSetDedup ((v3DateMatches text).filterMap (fun c =>
    if validDate (processDateMatch_v3 c) then some (formatDate (processDateMatch_v3 c))
    else none))

/-- The date-field selection of `part_000` `processReceiptImage` (line 726):
`allDates.length > 0 ? allDates[0] : null`. -/
def v3DateField (text : String) : Option String :=
  match extractAllDates_v3 text with
  | [] => none
  | d :: _ => some d

/-- One iteration of the pattern loop in `nativeOCR.ts` `extractDate`: take
the leftmost match of the pattern, process it, and return the formatted date
only when it passes the validity filter. -/
def tryDatePattern (st : Option Char → List Char → Option (DateCaps × Nat))
    (proc : DateCaps → YMD) (text : String) : Option String :=
  match runFindFirst st text with
  | none => none
  | some c => if validDate (proc c) then some (formatDate (proc c)) else none

/-- `nativeOCR.ts` `extractDate` (lines 427-493): the five patterns are
tried in order; for each, only the leftmost match is considered; an invalid
candidate falls through to the next pattern. -/
def extractDate_native (text : String) : Option String :=
  match tryDatePattern (numericDateStep isDateSep2 4 false false) processNumericDate text with
  | some r => some r
  | none =>
  match tryDatePattern (numericDateStep isDateSep2 2 false true) processNumericDate text with
  | some r => some r
  | none =>
  match tryDatePattern (isoDateStep false) processIsoDate text with
  | some r => some r
  | none =>
  match tryDatePattern (numericDateStep (fun c => c == '/') 4 false false) processNumericDate text with
  | some r => some r
  | none =>
    tryDatePattern (monthNameDateStep false) processMonthNameDate_native text

/-- Byte-wise lexicographic comparison of char lists: JS string `<=` and the
default `Array.prototype.sort()` order; on the zero-padded ISO dates handled
by `extractBestDate` this is exactly chronological order. -/
def strLeChars : List Char → List Char → Bool
  | [], _ => true
  | _ :: _, [] => false
  | a :: as, b :: bs =>
    if a.toNat < b.toNat then true
    else if b.toNat < a.toNat then false
    else strLeChars as bs

/-- JS string `<=`, as used on ISO dates by `offlineOCR.ts`. -/
def strLe (a b : String) : Bool := strLeChars a.data b.data

/-- `strLe` as a relation, the order of the default `sort()` on strings. -/
def strLeP (a b : String) : Prop := strLe a b = true

instance : DecidableRel strLeP :=
  fun a b => inferInstanceAs (Decidable (strLe a b = true))

instance : IsTotal String strLeP where
  total a b := by
    show strLeChars a.data b.data = true ∨ strLeChars b.data a.data = true
    generalize a.data = l1
    generalize b.data = l2
    induction l1 generalizing l2 with
    | nil => left; rfl
    | cons x xs ih =>
      cases l2 with
      | nil => right; rfl
      | cons y ys =>
        by_cases hxy : x.toNat < y.toNat
        · left; simp only [strLeChars]; rw [if_pos hxy]
        · by_cases hyx : y.toNat < x.toNat
          · right; simp only [strLeChars]; rw [if_pos hyx]
          · rcases ih ys with h | h
            · left; simp only [strLeChars]; rw [if_neg hxy, if_neg hyx]; exact h
            · right; simp only [strLeChars]; rw [if_neg hyx, if_neg hxy]; exact h

instance : IsTrans String strLeP where
  trans a b c hab hbc := by
    show strLeChars a.data c.data = true
    have key : ∀ (l1 l2 l3 : List Char), strLeChars l1 l2 = true →
        strLeChars l2 l3 = true → strLeChars l1 l3 = true := by
      intro l1
      induction l1 with
      | nil => intro l2 l3 _ _; rfl
      | cons x xs ih =>
        intro l2 l3 h12 h23
        cases l2 with
        | nil => simp [strLeChars] at h12
        | cons y ys =>
          cases l3 with
          | nil => simp [strLeChars] at h23
          | cons z zs =>
            simp only [strLeChars] at h12 h23 ⊢
            by_cases hxy : x.toNat < y.toNat
            · by_cases hyz : y.toNat < z.toNat
              · rw [if_pos (by omega)]
              · rw [if_neg hyz] at h23
                by_cases hzy : z.toNat < y.toNat
                · rw [if_pos hzy] at h23; exact absurd h23 (by simp)
                · rw [if_pos (by omega)]
            · rw [if_neg hxy] at h12
              by_cases hyx : y.toNat < x.toNat
              · rw [if_pos hyx] at h12; exact absurd h12 (by simp)
              · rw [if_neg hyx] at h12
                by_cases hyz : y.toNat < z.toNat
                · rw [if_pos (by omega)]
                · rw [if_neg hyz] at h23
                  by_cases hzy : z.toNat < y.toNat
                  · rw [if_pos hzy] at h23; exact absurd h23 (by simp)
                  · rw [if_neg hzy] at h23
                    rw [if_neg (show ¬x.toNat < z.toNat by omega),
                      if_neg (show ¬z.toNat < x.toNat by omega)]
                    exact ih ys zs h12 h23
    exact key a.data b.data c.data hab hbc

/-- `src/services/offlineOCR.ts` lines 473-485 (`extractBestDate`), used by
that file's `processReceiptImage` (line 360) to pick the date field: with
two or more found dates, keep those `<=` today and return the largest
(`validDates.sort().reverse()[0]`), falling back to `dates[0]` when none
qualifies.  `today` stands for `new Date().toISOString().split('T')[0]`. -/
def extractBestDate (today : String) (dates : List String) : Option String :=
  if dates.length == 0 then none
  else if dates.length == 1 then dates.head?
  else if ((dates.filter (fun d => strLe d today)).length == 0) then dates.head?
  else ((dates.filter (fun d => strLe d today)).insertionSort strLeP).reverse.head?

/-! ### Merchant database and category classifier

`part_000` lines 87-357 (250 rules) and lines 409-480 (keyword map);
`part_001` lines 52-124 (54 rules) and lines 127-142 (keyword map);
classifiers at `part_000` lines 982-1017 and `part_001` lines 329-360. -/

/-- A static merchant rule (`MerchantMapping`). -/
structure MerchantMapping where
  patterns : List String
  category : String
  displayName : String
deriving DecidableEq, Repr

/-- `BUILT_IN_MERCHANTS` of `part_000`, in declaration order. -/
def BUILT_IN_MERCHANTS_v3 : List MerchantMapping := [
  MerchantMapping.mk ["spar", "eurospar", "interspar", "spar albania", "spar express"] "Office Supplies" "SPAR",
  MerchantMapping.mk ["lidl", "lidl stiftung"] "Office Supplies" "Lidl",
  MerchantMapping.mk ["aldi", "aldi nord", "aldi sud", "aldi süd"] "Office Supplies" "Aldi",
  MerchantMapping.mk ["kaufland"] "Office Supplies" "Kaufland",
  MerchantMapping.mk ["rewe", "rewe city", "rewe center"] "Office Supplies" "REWE",
  MerchantMapping.mk ["edeka", "e center", "marktkauf"] "Office Supplies" "Edeka",
  MerchantMapping.mk ["penny", "penny markt", "penny market"] "Office Supplies" "Penny",
  MerchantMapping.mk ["netto", "netto marken"] "Office Supplies" "Netto",
  MerchantMapping.mk ["dm", "dm drogerie", "dm-drogerie"] "Office Supplies" "dm",
  MerchantMapping.mk ["rossmann"] "Office Supplies" "Rossmann",
  MerchantMapping.mk ["muller", "müller", "mueller"] "Office Supplies" "Müller",
  MerchantMapping.mk ["billa", "billa plus"] "Office Supplies" "Billa",
  MerchantMapping.mk ["hofer"] "Office Supplies" "Hofer",
  MerchantMapping.mk ["mercator"] "Office Supplies" "Mercator",
  MerchantMapping.mk ["konzum"] "Office Supplies" "Konzum",
  MerchantMapping.mk ["carrefour", "carrefour express", "carrefour market"] "Office Supplies" "Carrefour",
  MerchantMapping.mk ["tesco", "tesco express", "tesco metro"] "Office Supplies" "Tesco",
  MerchantMapping.mk ["sainsbury", "sainsbury's"] "Office Supplies" "Sainsbury's",
  MerchantMapping.mk ["asda"] "Office Supplies" "ASDA",
  MerchantMapping.mk ["morrisons"] "Office Supplies" "Morrisons",
  MerchantMapping.mk ["waitrose"] "Office Supplies" "Waitrose",
  MerchantMapping.mk ["migros"] "Office Supplies" "Migros",
  MerchantMapping.mk ["coop", "coop city", "coop pronto"] "Office Supplies" "Coop",
  MerchantMapping.mk ["denner"] "Office Supplies" "Denner",
  MerchantMapping.mk ["albert heijn", "ah", "albert"] "Office Supplies" "Albert Heijn",
  MerchantMapping.mk ["jumbo"] "Office Supplies" "Jumbo",
  MerchantMapping.mk ["delhaize", "ad delhaize"] "Office Supplies" "Delhaize",
  MerchantMapping.mk ["colruyt"] "Office Supplies" "Colruyt",
  MerchantMapping.mk ["auchan"] "Office Supplies" "Auchan",
  MerchantMapping.mk ["leclerc", "e.leclerc"] "Office Supplies" "E.Leclerc",
  MerchantMapping.mk ["intermarche", "intermarch"] "Office Supplies" "Intermarché",
  MerchantMapping.mk ["monoprix"] "Office Supplies" "Monoprix",
  MerchantMapping.mk ["mercadona"] "Office Supplies" "Mercadona",
  MerchantMapping.mk ["eroski"] "Office Supplies" "Eroski",
  MerchantMapping.mk ["dia", "dia %"] "Office Supplies" "DIA",
  MerchantMapping.mk ["pingo doce"] "Office Supplies" "Pingo Doce",
  MerchantMapping.mk ["continente"] "Office Supplies" "Continente",
  MerchantMapping.mk ["esselunga"] "Office Supplies" "Esselunga",
  MerchantMapping.mk ["conad"] "Office Supplies" "Conad",
  MerchantMapping.mk ["eurospin"] "Office Supplies" "Eurospin",
  MerchantMapping.mk ["despar"] "Office Supplies" "Despar",
  MerchantMapping.mk ["biedronka"] "Office Supplies" "Biedronka",
  MerchantMapping.mk ["zabka", "żabka"] "Office Supplies" "Żabka",
  MerchantMapping.mk ["walmart", "wal-mart", "wal mart"] "Office Supplies" "Walmart",
  MerchantMapping.mk ["target"] "Office Supplies" "Target",
  MerchantMapping.mk ["costco", "costco wholesale"] "Office Supplies" "Costco",
  MerchantMapping.mk ["kroger"] "Office Supplies" "Kroger",
  MerchantMapping.mk ["safeway"] "Office Supplies" "Safeway",
  MerchantMapping.mk ["publix"] "Office Supplies" "Publix",
  MerchantMapping.mk ["whole foods", "wholefoods"] "Office Supplies" "Whole Foods",
  MerchantMapping.mk ["trader joe", "trader joe's"] "Office Supplies" "Trader Joe's",
  MerchantMapping.mk ["cvs", "cvs pharmacy"] "Office Supplies" "CVS",
  MerchantMapping.mk ["walgreens"] "Office Supplies" "Walgreens",
  MerchantMapping.mk ["rite aid"] "Office Supplies" "Rite Aid",
  MerchantMapping.mk ["dollar general"] "Office Supplies" "Dollar General",
  MerchantMapping.mk ["dollar tree"] "Office Supplies" "Dollar Tree",
  MerchantMapping.mk ["family dollar"] "Office Supplies" "Family Dollar",
  MerchantMapping.mk ["starbucks", "sbux"] "Meals (Business)" "Starbucks",
  MerchantMapping.mk ["mcdonalds", "mcdonald's", "mcd", "mc donalds"] "Meals (Business)" "McDonald's",
  MerchantMapping.mk ["burger king", "bk"] "Meals (Business)" "Burger King",
  MerchantMapping.mk ["wendys", "wendy's"] "Meals (Business)" "Wendy's",
  MerchantMapping.mk ["subway"] "Meals (Business)" "Subway",
  MerchantMapping.mk ["chipotle"] "Meals (Business)" "Chipotle",
  MerchantMapping.mk ["taco bell"] "Meals (Business)" "Taco Bell",
  MerchantMapping.mk ["kfc", "kentucky fried"] "Meals (Business)" "KFC",
  MerchantMapping.mk ["pizza hut"] "Meals (Business)" "Pizza Hut",
  MerchantMapping.mk ["dominos", "domino's"] "Meals (Business)" "Domino's",
  MerchantMapping.mk ["papa john", "papa john's"] "Meals (Business)" "Papa John's",
  MerchantMapping.mk ["panera", "panera bread"] "Meals (Business)" "Panera Bread",
  MerchantMapping.mk ["dunkin", "dunkin donuts"] "Meals (Business)" "Dunkin",
  MerchantMapping.mk ["chick-fil-a", "chick fil a", "chickfila"] "Meals (Business)" "Chick-fil-A",
  MerchantMapping.mk ["popeyes"] "Meals (Business)" "Popeyes",
  MerchantMapping.mk ["five guys"] "Meals (Business)" "Five Guys",
  MerchantMapping.mk ["shake shack"] "Meals (Business)" "Shake Shack",
  MerchantMapping.mk ["in-n-out", "in n out"] "Meals (Business)" "In-N-Out",
  MerchantMapping.mk ["uber eats", "ubereats"] "Meals (Business)" "Uber Eats",
  MerchantMapping.mk ["doordash", "door dash"] "Meals (Business)" "DoorDash",
  MerchantMapping.mk ["grubhub"] "Meals (Business)" "Grubhub",
  MerchantMapping.mk ["deliveroo"] "Meals (Business)" "Deliveroo",
  MerchantMapping.mk ["just eat", "justeat"] "Meals (Business)" "Just Eat",
  MerchantMapping.mk ["lieferando"] "Meals (Business)" "Lieferando",
  MerchantMapping.mk ["shell"] "Travel" "Shell",
  MerchantMapping.mk ["chevron"] "Travel" "Chevron",
  MerchantMapping.mk ["exxon", "exxonmobil"] "Travel" "ExxonMobil",
  MerchantMapping.mk ["mobil"] "Travel" "Mobil",
  MerchantMapping.mk ["bp", "british petroleum"] "Travel" "BP",
  MerchantMapping.mk ["esso"] "Travel" "Esso",
  MerchantMapping.mk ["total", "totalenergies"] "Travel" "TotalEnergies",
  MerchantMapping.mk ["aral"] "Travel" "Aral",
  MerchantMapping.mk ["eni", "agip"] "Travel" "Eni",
  MerchantMapping.mk ["omv"] "Travel" "OMV",
  MerchantMapping.mk ["mol"] "Travel" "MOL",
  MerchantMapping.mk ["petrol"] "Travel" "Petrol",
  MerchantMapping.mk ["ina"] "Travel" "INA",
  MerchantMapping.mk ["lukoil"] "Travel" "Lukoil",
  MerchantMapping.mk ["repsol"] "Travel" "Repsol",
  MerchantMapping.mk ["cepsa"] "Travel" "Cepsa",
  MerchantMapping.mk ["galp"] "Travel" "Galp",
  MerchantMapping.mk ["q8", "kuwait petroleum"] "Travel" "Q8",
  MerchantMapping.mk ["arco"] "Travel" "ARCO",
  MerchantMapping.mk ["76", "seventy six"] "Travel" "76",
  MerchantMapping.mk ["speedway"] "Travel" "Speedway",
  MerchantMapping.mk ["circle k"] "Travel" "Circle K",
  MerchantMapping.mk ["wawa"] "Travel" "Wawa",
  MerchantMapping.mk ["sheetz"] "Travel" "Sheetz",
  MerchantMapping.mk ["racetrac"] "Travel" "RaceTrac",
  MerchantMapping.mk ["quiktrip", "qt"] "Travel" "QuikTrip",
  MerchantMapping.mk ["best buy", "bestbuy"] "Equipment" "Best Buy",
  MerchantMapping.mk ["apple store", "apple.com"] "Equipment" "Apple",
  MerchantMapping.mk ["media markt", "mediamarkt"] "Equipment" "MediaMarkt",
  MerchantMapping.mk ["saturn"] "Equipment" "Saturn",
  MerchantMapping.mk ["euronics"] "Equipment" "Euronics",
  MerchantMapping.mk ["expert"] "Equipment" "Expert",
  MerchantMapping.mk ["conrad"] "Equipment" "Conrad",
  MerchantMapping.mk ["currys", "pc world"] "Equipment" "Currys",
  MerchantMapping.mk ["staples"] "Office Supplies" "Staples",
  MerchantMapping.mk ["office depot", "officemax"] "Office Supplies" "Office Depot",
  MerchantMapping.mk ["amazon", "amzn", "amazon.com", "amazon.de", "amazon.co.uk"] "Office Supplies" "Amazon",
  MerchantMapping.mk ["home depot"] "Equipment" "Home Depot",
  MerchantMapping.mk ["lowes", "lowe's"] "Equipment" "Lowe's",
  MerchantMapping.mk ["ikea"] "Equipment" "IKEA",
  MerchantMapping.mk ["hornbach"] "Equipment" "Hornbach",
  MerchantMapping.mk ["obi"] "Equipment" "OBI",
  MerchantMapping.mk ["bauhaus"] "Equipment" "Bauhaus",
  MerchantMapping.mk ["leroy merlin"] "Equipment" "Leroy Merlin",
  MerchantMapping.mk ["adobe", "creative cloud"] "Software / SaaS" "Adobe",
  MerchantMapping.mk ["microsoft", "msft", "office 365", "microsoft 365"] "Software / SaaS" "Microsoft",
  MerchantMapping.mk ["google", "google cloud", "google workspace"] "Software / SaaS" "Google",
  MerchantMapping.mk ["apple", "icloud", "apple one"] "Software / SaaS" "Apple",
  MerchantMapping.mk ["dropbox"] "Software / SaaS" "Dropbox",
  MerchantMapping.mk ["slack"] "Software / SaaS" "Slack",
  MerchantMapping.mk ["zoom"] "Software / SaaS" "Zoom",
  MerchantMapping.mk ["notion"] "Software / SaaS" "Notion",
  MerchantMapping.mk ["figma"] "Software / SaaS" "Figma",
  MerchantMapping.mk ["canva"] "Software / SaaS" "Canva",
  MerchantMapping.mk ["github"] "Software / SaaS" "GitHub",
  MerchantMapping.mk ["atlassian", "jira", "confluence"] "Software / SaaS" "Atlassian",
  MerchantMapping.mk ["salesforce"] "Software / SaaS" "Salesforce",
  MerchantMapping.mk ["hubspot"] "Software / SaaS" "HubSpot",
  MerchantMapping.mk ["mailchimp"] "Software / SaaS" "Mailchimp",
  MerchantMapping.mk ["quickbooks", "intuit"] "Software / SaaS" "QuickBooks",
  MerchantMapping.mk ["xero"] "Software / SaaS" "Xero",
  MerchantMapping.mk ["freshbooks"] "Software / SaaS" "FreshBooks",
  MerchantMapping.mk ["shopify"] "Software / SaaS" "Shopify",
  MerchantMapping.mk ["squarespace"] "Software / SaaS" "Squarespace",
  MerchantMapping.mk ["wix"] "Software / SaaS" "Wix",
  MerchantMapping.mk ["godaddy"] "Software / SaaS" "GoDaddy",
  MerchantMapping.mk ["namecheap"] "Software / SaaS" "Namecheap",
  MerchantMapping.mk ["cloudflare"] "Software / SaaS" "Cloudflare",
  MerchantMapping.mk ["aws", "amazon web services"] "Software / SaaS" "AWS",
  MerchantMapping.mk ["digitalocean"] "Software / SaaS" "DigitalOcean",
  MerchantMapping.mk ["heroku"] "Software / SaaS" "Heroku",
  MerchantMapping.mk ["vercel"] "Software / SaaS" "Vercel",
  MerchantMapping.mk ["netlify"] "Software / SaaS" "Netlify",
  MerchantMapping.mk ["verizon", "vzw"] "Phone / Internet" "Verizon",
  MerchantMapping.mk ["at&t", "att"] "Phone / Internet" "AT&T",
  MerchantMapping.mk ["t-mobile", "tmobile"] "Phone / Internet" "T-Mobile",
  MerchantMapping.mk ["sprint"] "Phone / Internet" "Sprint",
  MerchantMapping.mk ["comcast", "xfinity"] "Phone / Internet" "Comcast/Xfinity",
  MerchantMapping.mk ["spectrum"] "Phone / Internet" "Spectrum",
  MerchantMapping.mk ["vodafone"] "Phone / Internet" "Vodafone",
  MerchantMapping.mk ["orange"] "Phone / Internet" "Orange",
  MerchantMapping.mk ["telekom", "deutsche telekom", "dt"] "Phone / Internet" "Telekom",
  MerchantMapping.mk ["o2"] "Phone / Internet" "O2",
  MerchantMapping.mk ["ee"] "Phone / Internet" "EE",
  MerchantMapping.mk ["three", "3 mobile"] "Phone / Internet" "Three",
  MerchantMapping.mk ["tim", "telecom italia"] "Phone / Internet" "TIM",
  MerchantMapping.mk ["wind", "wind tre"] "Phone / Internet" "Wind Tre",
  MerchantMapping.mk ["iliad"] "Phone / Internet" "Iliad",
  MerchantMapping.mk ["swisscom"] "Phone / Internet" "Swisscom",
  MerchantMapping.mk ["sunrise"] "Phone / Internet" "Sunrise",
  MerchantMapping.mk ["salt"] "Phone / Internet" "Salt",
  MerchantMapping.mk ["kpn"] "Phone / Internet" "KPN",
  MerchantMapping.mk ["proximus"] "Phone / Internet" "Proximus",
  MerchantMapping.mk ["telenet"] "Phone / Internet" "Telenet",
  MerchantMapping.mk ["movistar"] "Phone / Internet" "Movistar",
  MerchantMapping.mk ["meo"] "Phone / Internet" "MEO",
  MerchantMapping.mk ["nos"] "Phone / Internet" "NOS",
  MerchantMapping.mk ["uber", "uber trip", "uber ride"] "Travel" "Uber",
  MerchantMapping.mk ["lyft"] "Travel" "Lyft",
  MerchantMapping.mk ["bolt", "bolt ride"] "Travel" "Bolt",
  MerchantMapping.mk ["grab"] "Travel" "Grab",
  MerchantMapping.mk ["freenow", "free now", "mytaxi"] "Travel" "FREE NOW",
  MerchantMapping.mk ["airbnb"] "Travel" "Airbnb",
  MerchantMapping.mk ["booking.com", "booking"] "Travel" "Booking.com",
  MerchantMapping.mk ["expedia"] "Travel" "Expedia",
  MerchantMapping.mk ["hotels.com"] "Travel" "Hotels.com",
  MerchantMapping.mk ["kayak"] "Travel" "Kayak",
  MerchantMapping.mk ["tripadvisor"] "Travel" "TripAdvisor",
  MerchantMapping.mk ["delta", "delta air"] "Travel" "Delta Airlines",
  MerchantMapping.mk ["united", "united air"] "Travel" "United Airlines",
  MerchantMapping.mk ["american air", "american airlines", "aa"] "Travel" "American Airlines",
  MerchantMapping.mk ["southwest", "swa"] "Travel" "Southwest",
  MerchantMapping.mk ["jetblue"] "Travel" "JetBlue",
  MerchantMapping.mk ["lufthansa", "lh"] "Travel" "Lufthansa",
  MerchantMapping.mk ["british airways", "ba"] "Travel" "British Airways",
  MerchantMapping.mk ["air france", "af"] "Travel" "Air France",
  MerchantMapping.mk ["klm"] "Travel" "KLM",
  MerchantMapping.mk ["ryanair"] "Travel" "Ryanair",
  MerchantMapping.mk ["easyjet"] "Travel" "easyJet",
  MerchantMapping.mk ["wizzair", "wizz air"] "Travel" "Wizz Air",
  MerchantMapping.mk ["vueling"] "Travel" "Vueling",
  MerchantMapping.mk ["eurowings"] "Travel" "Eurowings",
  MerchantMapping.mk ["hilton"] "Travel" "Hilton",
  MerchantMapping.mk ["marriott"] "Travel" "Marriott",
  MerchantMapping.mk ["hyatt"] "Travel" "Hyatt",
  MerchantMapping.mk ["ihg", "intercontinental"] "Travel" "IHG",
  MerchantMapping.mk ["accor", "novotel", "ibis", "mercure"] "Travel" "Accor",
  MerchantMapping.mk ["hertz"] "Travel" "Hertz",
  MerchantMapping.mk ["avis"] "Travel" "Avis",
  MerchantMapping.mk ["enterprise"] "Travel" "Enterprise",
  MerchantMapping.mk ["sixt"] "Travel" "Sixt",
  MerchantMapping.mk ["europcar"] "Travel" "Europcar",
  MerchantMapping.mk ["usps", "us postal", "postal service"] "Shipping / Delivery" "USPS",
  MerchantMapping.mk ["fedex", "federal express"] "Shipping / Delivery" "FedEx",
  MerchantMapping.mk ["ups", "united parcel"] "Shipping / Delivery" "UPS",
  MerchantMapping.mk ["dhl"] "Shipping / Delivery" "DHL",
  MerchantMapping.mk ["dpd"] "Shipping / Delivery" "DPD",
  MerchantMapping.mk ["gls"] "Shipping / Delivery" "GLS",
  MerchantMapping.mk ["hermes"] "Shipping / Delivery" "Hermes",
  MerchantMapping.mk ["royal mail"] "Shipping / Delivery" "Royal Mail",
  MerchantMapping.mk ["la poste"] "Shipping / Delivery" "La Poste",
  MerchantMapping.mk ["deutsche post"] "Shipping / Delivery" "Deutsche Post",
  MerchantMapping.mk ["poste italiane"] "Shipping / Delivery" "Poste Italiane",
  MerchantMapping.mk ["correos"] "Shipping / Delivery" "Correos",
  MerchantMapping.mk ["postnl"] "Shipping / Delivery" "PostNL",
  MerchantMapping.mk ["bpost"] "Shipping / Delivery" "bpost",
  MerchantMapping.mk ["paypal"] "Bank Fees" "PayPal",
  MerchantMapping.mk ["stripe"] "Bank Fees" "Stripe",
  MerchantMapping.mk ["square"] "Bank Fees" "Square",
  MerchantMapping.mk ["wise", "transferwise"] "Bank Fees" "Wise",
  MerchantMapping.mk ["revolut"] "Bank Fees" "Revolut",
  MerchantMapping.mk ["n26"] "Bank Fees" "N26",
  MerchantMapping.mk ["monzo"] "Bank Fees" "Monzo",
  MerchantMapping.mk ["chase", "jpmorgan"] "Bank Fees" "Chase",
  MerchantMapping.mk ["bank of america", "bofa"] "Bank Fees" "Bank of America",
  MerchantMapping.mk ["wells fargo"] "Bank Fees" "Wells Fargo",
  MerchantMapping.mk ["citi", "citibank"] "Bank Fees" "Citibank",
  MerchantMapping.mk ["barclays"] "Bank Fees" "Barclays",
  MerchantMapping.mk ["hsbc"] "Bank Fees" "HSBC",
  MerchantMapping.mk ["santander"] "Bank Fees" "Santander",
  MerchantMapping.mk ["ing"] "Bank Fees" "ING",
  MerchantMapping.mk ["deutsche bank"] "Bank Fees" "Deutsche Bank",
  MerchantMapping.mk ["commerzbank"] "Bank Fees" "Commerzbank",
  MerchantMapping.mk ["ubs"] "Bank Fees" "UBS",
  MerchantMapping.mk ["credit suisse"] "Bank Fees" "Credit Suisse",
  MerchantMapping.mk ["bnp paribas", "bnp"] "Bank Fees" "BNP Paribas",
  MerchantMapping.mk ["societe generale"] "Bank Fees" "Société Générale",
  MerchantMapping.mk ["unicredit"] "Bank Fees" "UniCredit",
  MerchantMapping.mk ["intesa"] "Bank Fees" "Intesa Sanpaolo"]
/-- `BUILT_IN_MERCHANTS` of `part_001`, in declaration order (the source
marks `displayName` optional but populates it on every row). -/
def BUILT_IN_MERCHANTS_v2 : List MerchantMapping := [
  MerchantMapping.mk ["spar", "spar albania", "eurospar", "interspar"] "Office Supplies" "SPAR",
  MerchantMapping.mk ["lidl"] "Office Supplies" "Lidl",
  MerchantMapping.mk ["aldi", "aldi nord", "aldi sud"] "Office Supplies" "Aldi",
  MerchantMapping.mk ["carrefour"] "Office Supplies" "Carrefour",
  MerchantMapping.mk ["tesco"] "Office Supplies" "Tesco",
  MerchantMapping.mk ["rewe"] "Office Supplies" "REWE",
  MerchantMapping.mk ["edeka"] "Office Supplies" "Edeka",
  MerchantMapping.mk ["kaufland"] "Office Supplies" "Kaufland",
  MerchantMapping.mk ["billa"] "Office Supplies" "Billa",
  MerchantMapping.mk ["penny"] "Office Supplies" "Penny",
  MerchantMapping.mk ["migros"] "Office Supplies" "Migros",
  MerchantMapping.mk ["mercadona"] "Office Supplies" "Mercadona",
  MerchantMapping.mk ["starbucks", "sbux"] "Meals (Business)" "Starbucks",
  MerchantMapping.mk ["mcdonalds", "mcdonald's"] "Meals (Business)" "McDonald's",
  MerchantMapping.mk ["subway"] "Meals (Business)" "Subway",
  MerchantMapping.mk ["chipotle"] "Meals (Business)" "Chipotle",
  MerchantMapping.mk ["uber eats"] "Meals (Business)" "Uber Eats",
  MerchantMapping.mk ["doordash"] "Meals (Business)" "DoorDash",
  MerchantMapping.mk ["shell"] "Travel" "Shell",
  MerchantMapping.mk ["chevron"] "Travel" "Chevron",
  MerchantMapping.mk ["exxon", "mobil", "esso"] "Travel" "Exxon",
  MerchantMapping.mk ["bp"] "Travel" "BP",
  MerchantMapping.mk ["total energies"] "Travel" "TotalEnergies",
  MerchantMapping.mk ["omv"] "Travel" "OMV",
  MerchantMapping.mk ["staples"] "Office Supplies" "Staples",
  MerchantMapping.mk ["amazon", "amzn"] "Office Supplies" "Amazon",
  MerchantMapping.mk ["best buy"] "Equipment" "Best Buy",
  MerchantMapping.mk ["apple store", "apple.com"] "Equipment" "Apple",
  MerchantMapping.mk ["media markt"] "Equipment" "MediaMarkt",
  MerchantMapping.mk ["adobe", "creative cloud"] "Software / SaaS" "Adobe",
  MerchantMapping.mk ["microsoft", "office 365"] "Software / SaaS" "Microsoft",
  MerchantMapping.mk ["google"] "Software / SaaS" "Google",
  MerchantMapping.mk ["dropbox"] "Software / SaaS" "Dropbox",
  MerchantMapping.mk ["slack"] "Software / SaaS" "Slack",
  MerchantMapping.mk ["zoom"] "Software / SaaS" "Zoom",
  MerchantMapping.mk ["uber", "uber trip"] "Travel" "Uber",
  MerchantMapping.mk ["lyft"] "Travel" "Lyft",
  MerchantMapping.mk ["bolt"] "Travel" "Bolt",
  MerchantMapping.mk ["airbnb"] "Travel" "Airbnb",
  MerchantMapping.mk ["booking.com"] "Travel" "Booking.com",
  MerchantMapping.mk ["ryanair"] "Travel" "Ryanair",
  MerchantMapping.mk ["wizzair", "wizz air"] "Travel" "Wizz Air",
  MerchantMapping.mk ["walmart"] "Office Supplies" "Walmart",
  MerchantMapping.mk ["target"] "Office Supplies" "Target",
  MerchantMapping.mk ["costco"] "Office Supplies" "Costco",
  MerchantMapping.mk ["home depot"] "Equipment" "Home Depot",
  MerchantMapping.mk ["usps", "postal service"] "Shipping / Delivery" "USPS",
  MerchantMapping.mk ["fedex"] "Shipping / Delivery" "FedEx",
  MerchantMapping.mk ["ups"] "Shipping / Delivery" "UPS",
  MerchantMapping.mk ["dhl"] "Shipping / Delivery" "DHL",
  MerchantMapping.mk ["paypal"] "Bank Fees" "PayPal",
  MerchantMapping.mk ["stripe"] "Bank Fees" "Stripe",
  MerchantMapping.mk ["wise", "transferwise"] "Bank Fees" "Wise",
  MerchantMapping.mk ["revolut"] "Bank Fees" "Revolut"]
/-- `CATEGORY_KEYWORDS` of `part_000` (lines 409-480), in declaration order
(`Object.entries` iterates string keys in insertion order). -/
def CATEGORY_KEYWORDS_v3 : List (String × List String) := [
  ("Meals (Business)",
   ["restaurant", "cafe", "coffee", "food", "diner", "grill", "bistro", "kitchen",
    "pizzeria", "bakery", "deli", "bar", "pub", "tavern",
    "ristorante", "trattoria", "osteria", "pasticceria", "gelateria",
    "gasthaus", "gaststätte", "bäckerei", "konditorei", "metzgerei", "imbiss",
    "brasserie", "boulangerie", "patisserie", "creperie",
    "restorant", "kafe", "piceri", "byrek",
    "restauracja", "kawiarnia", "piekarnia"]),
  ("Travel",
   ["gas", "fuel", "petroleum", "petrol", "diesel", "benzin", "tankstelle",
    "airline", "flight", "airport", "flughafen", "aeroporto", "aeroport",
    "hotel", "motel", "hostel", "inn", "lodge",
    "rental car", "car hire", "autovermietung",
    "parking", "toll", "maut", "pedaggio",
    "taxi", "cab", "rideshare",
    "train", "railway", "bahn", "sncf", "trenitalia",
    "bus", "coach", "flixbus"]),
  ("Office Supplies",
   ["office", "supplies", "paper", "ink", "toner", "stationery",
    "bürobedarf", "büromaterial", "papier",
    "cancelleria", "cartoleria",
    "fournitures", "papeterie"]),
  ("Equipment",
   ["computer", "laptop", "notebook", "tablet", "phone",
    "monitor", "display", "screen",
    "printer", "scanner", "drucker",
    "electronics", "elektronik", "elettronica",
    "hardware", "device", "gerät",
    "camera", "kamera"]),
  ("Software / SaaS",
   ["software", "subscription", "cloud", "saas", "app",
    "license", "lizenz", "licenza",
    "hosting", "domain", "server",
    "abonnement", "abbonamento"]),
  ("Shipping / Delivery",
   ["shipping", "postage", "courier", "freight", "delivery",
    "versand", "porto", "paket",
    "spedizione", "posta",
    "livraison", "envoi", "colis"]),
  ("Phone / Internet",
   ["mobile", "cellular", "wireless", "telefon", "handy",
    "internet", "broadband", "wifi", "fiber",
    "telecom", "telco"]),
  ("Utilities",
   ["electric", "electricity", "strom", "elettricità",
    "gas", "heating", "heizung",
    "water", "wasser", "acqua", "eau",
    "utility", "utilities"]),
  ("Professional Services",
   ["legal", "attorney", "lawyer", "rechtsanwalt", "avvocato",
    "accounting", "accountant", "cpa", "steuerberater", "commercialista",
    "consulting", "consultant", "beratung"]),
  ("Insurance",
   ["insurance", "versicherung", "assicurazione", "assurance",
    "policy", "premium", "coverage"]),
  ("Advertising / Marketing",
   ["advertising", "ads", "ad spend", "werbung", "pubblicità",
    "marketing", "promotion", "campaign",
    "social media", "facebook ads", "google ads"])]

/-- `CATEGORY_KEYWORDS` of `part_001` (lines 127-142); the mojibake in
`bÃ¤ckerei` is reproduced from the source byte-for-byte. -/
def CATEGORY_KEYWORDS_v2 : List (String × List String) := [
  ("Meals (Business)",
   ["restaurant", "cafe", "coffee", "food", "diner", "grill", "bistro",
    "pizzeria", "bakery", "deli", "bar", "ristorante", "trattoria",
    "gasthaus", "bÃ¤ckerei", "brasserie", "boulangerie", "restorant", "kafe"]),
  ("Travel",
   ["gas", "fuel", "petroleum", "airline", "hotel", "motel", "parking",
    "toll", "transit", "taxi", "airport", "benzin", "tankstelle",
    "aeroporto", "flughafen", "aeroport"]),
  ("Office Supplies", ["office", "supplies", "paper", "ink", "stationery"]),
  ("Equipment", ["computer", "laptop", "monitor", "printer", "electronics", "hardware"]),
  ("Software / SaaS", ["software", "subscription", "cloud", "app", "license", "saas"]),
  ("Shipping / Delivery", ["shipping", "postage", "courier", "freight", "delivery"])]

/-- Category confidence levels. -/
inductive Confidence
  | high
  | medium
  | low
deriving DecidableEq, Repr

/-- The learned-merchant match performed per entry by `part_000`
`suggestCategory` (lines 988-996): name a substring of the merchant, merchant
a substring of the name, or name anywhere in the full text. -/
def learnedMatch_v3 (textLower merchantLower : String) (m : LearnedMerchant) : Bool :=
  jsIncludes merchantLower m.name || jsIncludes m.name merchantLower ||
    jsIncludes textLower m.name

/-- The learned-merchant loop of `part_000` `suggestCategory`: first match
wins, in list order. -/
def learnedScan_v3 (textLower merchantLower : String) :
    List LearnedMerchant → Option String
  | [] => none
  | m :: rest =>
    if jsIncludes merchantLower m.name || jsIncludes m.name merchantLower then
      some m.category
    else if jsIncludes textLower m.name then
      some m.category
    else learnedScan_v3 textLower merchantLower rest

/-- The learned-merchant match performed per entry by `part_001`
`suggestCategory` (lines 335-339): name a substring of the merchant or of the
full text — the "name contains merchant" direction is absent. -/
def learnedMatch_v2 (textLower merchantLower : String) (m : LearnedMerchant) : Bool :=
  jsIncludes merchantLower m.name || jsIncludes textLower m.name

/-- The learned-merchant loop of `part_001` `suggestCategory`. -/
def learnedScan_v2 (textLower merchantLower : String) :
    List LearnedMerchant → Option String
  | [] => none
  | m :: rest =>
    if jsIncludes merchantLower m.name || jsIncludes textLower m.name then
      some m.category
    else learnedScan_v2 textLower merchantLower rest

/-- The built-in merchant loop shared verbatim by both `suggestCategory`
implementations: first rule with a pattern occurring in the text or the
merchant name wins, in table order. -/
def builtinScan (textLower merchantLower : String) :
    List MerchantMapping → Option String
  | [] => none
  | m :: rest =>
    if m.patterns.any (fun p => jsIncludes textLower p || jsIncludes merchantLower p) then
      some m.category
    else builtinScan textLower merchantLower rest

/-- The keyword fallback loop shared by both `suggestCategory`
implementations: first category with a keyword occurring in the text wins,
in map order. -/
def keywordScan (textLower : String) :
    List (String × List String) → Option String
  | [] => none
  | (category, keywords) :: rest =>
    if keywords.any (fun k => jsIncludes textLower k) then some category
    else keywordScan textLower rest

/-- `part_000` `suggestCategory` (lines 982-1017).  The learned collection is
passed explicitly (the source reads it through `getLearnedMerchants()`). -/
def suggestCategory_v3 (learned : List LearnedMerchant) (text : String)
    (merchantName : Option String) : Option String × Confidence :=
  match learnedScan_v3 (jsToLower text) (jsToLower (merchantName.getD "")) learned with
  | some c => (some c, .high)
  | none =>
    match builtinScan (jsToLower text) (jsToLower (merchantName.getD ""))
        BUILT_IN_MERCHANTS_v3 with
    | some c => (some c, .high)
    | none =>
      match keywordScan (jsToLower text) CATEGORY_KEYWORDS_v3 with
      | some c => (some c, .medium)
      | none => (none, .low)

/-- `part_001` `suggestCategory` (lines 329-360). -/
def suggestCategory_v2 (learned : List LearnedMerchant) (text : String)
    (merchantName : Option String) : Option String × Confidence :=
  match learnedScan_v2 (jsToLower text) (jsToLower (merchantName.getD "")) learned with
  | some c => (some c, .high)
  | none =>
    match builtinScan (jsToLower text) (jsToLower (merchantName.getD ""))
        BUILT_IN_MERCHANTS_v2 with
    | some c => (some c, .high)
    | none =>
      match keywordScan (jsToLower text) CATEGORY_KEYWORDS_v2 with
      | some c => (some c, .medium)
      | none => (none, .low)

/-! ### Merchant identifier and scan pipeline of `nativeOCR.ts` -/

/-- Anchored prefix test `^\d+[\/\-\.]\d+[\/\-\.]\d+` (a date-like line). -/
def startsNumDateShape (l : List Char) : Bool :=
  let p1 := spanDigits l
  if p1.1.isEmpty then false
  else
    match p1.2 with
    | s1 :: r2 =>
      if isDateSep3 s1 then
        let p2 := spanDigits r2
        if p2.1.isEmpty then false
        else
          match p2.2 with
          | s2 :: r4 => if isDateSep3 s2 then !(spanDigits r4).1.isEmpty else false
          | [] => false
      else false
    | [] => false

/-- The skip patterns of `nativeOCR.ts` `extractMerchant` (lines 290-296).
In `/^tel|phone|fax|www\.|http/i` and `/^address|adresse|indirizzo|adresa/i`
the anchor binds only to the first alternative, so the remaining
alternatives match anywhere in the line — reproduced faithfully. -/
def skipLine_native (cleaned : String) : Bool :=
  let lower := jsToLower cleaned
  (["receipt", "invoice", "bill", "ticket", "bon", "factura", "rechnung",
    "ricevuta", "fatura"].any (fun p => p.data.isPrefixOf lower.data)) ||
  startsNumDateShape cleaned.data ||
  (match cleaned.data with
   | a :: b :: c :: d :: e :: _ =>
     a.isDigit && b.isDigit && c == ':' && d.isDigit && e.isDigit
   | _ => false) ||
  ("tel".data.isPrefixOf lower.data) || jsIncludes lower "phone" ||
    jsIncludes lower "fax" || jsIncludes lower "www." || jsIncludes lower "http" ||
  ("address".data.isPrefixOf lower.data) || jsIncludes lower "adresse" ||
    jsIncludes lower "indirizzo" || jsIncludes lower "adresa"

/-- `nativeOCR.ts` `extractMerchant` (lines 286-315): first of the first
five nonempty lines of the top region that survives the skip patterns, the
length window `[2, 50]` and the letter-share threshold `0.3`. -/
def extractMerchant_native (topRegion : RegionResult) : Option String :=
  let lines := ((jsSplitChar '\n' topRegion.text.data).map String.mk).filter
    (fun l => (jsTrim l).data.length > 0)
  firstGood (lines.take 5)
where
  /-- Try candidate lines in order. -/
  firstGood : List String → Option String
    | [] => none
    | line :: rest =>
      let cleaned := jsTrim line
      if skipLine_native cleaned then firstGood rest
      else if cleaned.data.length < 2 || cleaned.data.length > 50 then firstGood rest
      else
        let letterCount := (cleaned.data.filter Char.isAlpha).length
        if ((letterCount : ℚ) / (cleaned.data.length : ℚ)) < 3 / 10 then firstGood rest
        else some cleaned

/-- `nativeOCR.ts` `RegionOCRResult`. -/
structure RegionOCRResult where
  text : String
  confidence : ℚ
  top : RegionResult
  middle : RegionResult
  bottom : RegionResult
deriving DecidableEq, Repr

/-- `nativeOCR.ts` `ParsedReceiptData`. -/
structure ParsedReceiptData where
  merchantName : Option String
  merchantConfidence : ℚ
  total : Option Dec
  subtotal : Option Dec
  tax : Option Dec
  date : Option String
  rawText : String
  overallConfidence : ℚ
  usedNativeOCR : Bool
deriving DecidableEq, Repr

/-- The extraction-and-gating stage of `nativeOCR.ts` `scanReceipt`
(lines 167-190), applied to the OCR result the engine returned: extract the
fields, then null the merchant below the fixed confidence threshold 60. -/
def scanReceiptAssemble (ocr : RegionOCRResult) (usedNative : Bool) : ParsedReceiptData :=
  let merchantName := extractMerchant_native ocr.top
  let totals := extractTotals_native ocr.bottom ocr.text
  let date := extractDate_native ocr.text
  let merchantConfidence := ocr.top.confidence
  let finalMerchant := if merchantConfidence ≥ 60 then merchantName else none
  { merchantName := finalMerchant
    merchantConfidence := merchantConfidence
    total := totals.total
    subtotal := totals.subtotal
    tax := totals.tax
    date := date
    rawText := ocr.text
    overallConfidence := ocr.confidence
    usedNativeOCR := usedNative }

/-! ### Supporting lemmas -/

/-- The empty string occurs in every string (JS `s.includes('')`). -/
theorem listIncludes_nil (l : List Char) : listIncludes [] l = true := by
  cases l <;> simp [listIncludes, List.isPrefixOf]

/-- Elements of `jsSetDedup.go seen l` come from `l`. -/
theorem mem_jsSetDedup_go {α : Type} [DecidableEq α] {x : α} :
    ∀ {seen l : List α}, x ∈ jsSetDedup.go seen l → x ∈ l := by
  intro seen l
  induction l generalizing seen with
  | nil => intro h; simp [jsSetDedup.go] at h
  | cons a t ih =>
    intro h
    unfold jsSetDedup.go at h
    by_cases ha : a ∈ seen
    · simp only [if_pos ha] at h
      exact List.mem_cons_of_mem _ (ih h)
    · simp only [if_neg ha] at h
      rcases List.mem_cons.mp h with h | h
      · exact h ▸ List.mem_cons_self _ _
      · exact List.mem_cons_of_mem _ (ih h)

/-- Elements of `jsSetDedup l` come from `l`. -/
theorem mem_jsSetDedup {α : Type} [DecidableEq α] {x : α} {l : List α}
    (h : x ∈ jsSetDedup l) : x ∈ l :=
  mem_jsSetDedup_go h

/-- Dropping the not-yet-seen elements, `jsSetDedup.go` avoids `seen` and
has no duplicates. -/
theorem nodup_jsSetDedup_go {α : Type} [DecidableEq α] :
    ∀ {seen l : List α}, (jsSetDedup.go seen l).Nodup ∧
      ∀ x ∈ jsSetDedup.go seen l, x ∉ seen := by
  intro seen l
  induction l generalizing seen with
  | nil => simp [jsSetDedup.go]
  | cons a t ih =>
    unfold jsSetDedup.go
    by_cases ha : a ∈ seen
    · simpa [if_pos ha] using ih
    · simp only [if_neg ha]
      obtain ⟨hn, hs⟩ := @ih (a :: seen)
      refine ⟨List.nodup_cons.mpr ⟨fun hmem => ?_, hn⟩, ?_⟩
      · exact (hs a hmem) (List.mem_cons_self _ _)
      · intro x hx
        rcases List.mem_cons.mp hx with rfl | hx'
        · exact ha
        · intro hxs
          exact (hs x hx') (List.mem_cons_of_mem _ hxs)

/-- `jsSetDedup` produces a duplicate-free list. -/
theorem nodup_jsSetDedup {α : Type} [DecidableEq α] (l : List α) :
    (jsSetDedup l).Nodup :=
  (nodup_jsSetDedup_go).1

/-- A strict decimal inequality is non-strict. -/
theorem Dec.le_of_lt_dec {a b : Dec} (h : Dec.lt a b) : Dec.le a b :=
  Nat.le_of_lt h

/-- Decimal totality: a failed strict comparison yields the reverse
non-strict one. -/
theorem Dec.le_of_not_lt {a b : Dec} (h : ¬ Dec.lt a b) : Dec.le b a :=
  Nat.le_of_not_lt h

/-- With a keyword-found total the fallback is the identity. -/
theorem totalsFallback_some (allAmounts : List Dec) (t : Dec) :
    totalsFallback allAmounts (some t) = some t := by
  cases allAmounts <;> rfl

/-- Post-processing of `part_000` `extractTotals` forces `subtotal ≤ total`
whenever both are present. -/
theorem totalsPost_v3_total_ge_subtotal (allAmounts : List Dec) (r : TotalsResult)
    {t s : Dec} (ht : (totalsPost_v3 allAmounts r).total = some t)
    (hs : (totalsPost_v3 allAmounts r).subtotal = some s) : Dec.le s t := by
  rcases hT : totalsFallback allAmounts r.total with _ | t0 <;>
    rcases hsub : r.subtotal with _ | s0 <;>
      simp only [totalsPost_v3, hT, hsub] at ht hs
  · exact Option.noConfusion ht
  · exact Option.noConfusion ht
  · exact Option.noConfusion hs
  · by_cases hlt : Dec.lt t0 s0
    · rw [if_pos hlt] at ht hs
      obtain rfl : s0 = t := Option.some.inj ht
      obtain rfl : t0 = s := Option.some.inj hs
      exact Dec.le_of_lt_dec hlt
    · rw [if_neg hlt] at ht hs
      obtain rfl : t0 = t := Option.some.inj ht
      obtain rfl : s0 = s := Option.some.inj hs
      exact Dec.le_of_not_lt hlt

/-- C1 (amended): in the `part_000` extractor, whenever the returned `total`
and `subtotal` are both non-null, `total >= subtotal`; and whenever the
keyword scan left `subtotal > total`, the post-processing swaps the two
values.  (The claim as stated is false of the `nativeOCR.ts` extractor,
which performs no swap — see the counterexample.) -/
theorem extractTotals_v3_total_ge_subtotal :
    ∀ (text : String) (allAmounts : List Dec),
      (∀ t s : Dec,
        (extractTotals_v3 text allAmounts).total = some t →
        (extractTotals_v3 text allAmounts).subtotal = some s →
        Dec.le s t) ∧
      (∀ (r : TotalsResult) (t s : Dec),
        r.total = some t → r.subtotal = some s → Dec.lt t s →
        totalsPost_v3 allAmounts r = ⟨some s, some t, r.tax⟩) := by
  intro text allAmounts
  constructor
  · intro t s ht hs
    unfold extractTotals_v3 at ht hs
    exact totalsPost_v3_total_ge_subtotal _ _ ht hs
  · intro r t s ht hs hlt
    simp only [totalsPost_v3, ht, hs, totalsFallback_some, if_pos hlt]

/-- C1 witness: a receipt whose keyword lines yield `subtotal 50`,
`total 40` comes back swapped, so the invariant instance `40 ≤ 50` follows
from the theorem applied to that concrete text. -/
theorem extractTotals_v3_total_ge_subtotal_witness :
    Dec.le (mkDec 40 0) (mkDec 50 0) :=
  (extractTotals_v3_total_ge_subtotal "subtotal 50.00\ntotal 40.00" []).1
    (mkDec 50 0) (mkDec 40 0) (by decide) (by decide)

/-- C1 counterexample: on a bottom region reading `netto 50.00` /
`total 40.00`, the `nativeOCR.ts` extractor returns `total = 40` and
`subtotal = 50` with no swap, violating `total >= subtotal` as stated. -/
theorem nativeExtractTotals_no_swap_counterexample :
    (extractTotals_native ⟨"netto 50.00\ntotal 40.00", 90, []⟩ "").total = some (mkDec 40 0) ∧
    (extractTotals_native ⟨"netto 50.00\ntotal 40.00", 90, []⟩ "").subtotal = some (mkDec 50 0) ∧
    Dec.lt (mkDec 40 0) (mkDec 50 0) := by
  refine ⟨by decide, by decide, by decide⟩

/-! ### C2 -/

/-- `strLeChars` is reflexive. -/
theorem strLeChars_refl : ∀ l : List Char, strLeChars l l = true := by
  intro l
  induction l with
  | nil => rfl
  | cons x xs ih =>
    simp only [strLeChars]
    rw [if_neg (by omega), if_neg (by omega)]
    exact ih

/-- In a list sorted under `strLeP`, the last element dominates every
element. -/
theorem sorted_strLe_getLast :
    ∀ (l : List String) (d : String), List.Pairwise strLeP l →
      l.getLast? = some d → ∀ x ∈ l, strLe x d = true := by
  intro l
  induction l with
  | nil => intro d _ h; exact absurd h (by simp)
  | cons a t ih =>
    intro d hp hlast x hx
    cases t with
    | nil =>
      have had : a = d := by simpa using hlast
      have hxa : x = a := by simpa using hx
      rw [hxa, ← had]
      exact strLeChars_refl a.data
    | cons b t' =>
      rw [List.getLast?_cons_cons] at hlast
      rcases List.mem_cons.mp hx with rfl | hx'
      · exact (List.pairwise_cons.mp hp).1 d (List.mem_of_getLast?_eq_some hlast)
      · exact ih d (List.pairwise_cons.mp hp).2 hlast x hx'

/-- C2 (amended): the `offlineOCR.ts` (v1) pipeline picks the date field
with `extractBestDate` — a found date not after today that is at least every
other such date (the most recent, under the chronological order of ISO
strings), with the first found date as fallback when every found date is
after today; the `part_000` pipeline instead always takes the first valid
date in scan order. -/
theorem dateSelection_v1_most_recent_v3_first :
    (∀ (today d : String) (dates : List String),
      extractBestDate today dates = some d →
      (∃ d0 ∈ dates, strLe d0 today = true) →
      d ∈ dates ∧ strLe d today = true ∧
        ∀ x ∈ dates, strLe x today = true → strLe x d = true) ∧
    (∀ (today : String) (dates : List String),
      (∀ x ∈ dates, strLe x today = false) →
      extractBestDate today dates = dates.head?) ∧
    (∀ text : String, v3DateField text = (extractAllDates_v3 text).head?) := by
  refine ⟨?_, ?_, ?_⟩
  · intro today d dates hsome hex
    obtain ⟨d0, hd0m, hd0le⟩ := hex
    cases dates with
    | nil => exact absurd hsome (by simp [extractBestDate])
    | cons a t =>
      cases t with
      | nil =>
        have had : a = d := Option.some.inj hsome
        have hd0a : d0 = a := by simpa using hd0m
        rw [← had]
        refine ⟨by simp, by rw [← hd0a]; exact hd0le, ?_⟩
        intro x hx _
        have hxa : x = a := by simpa using hx
        rw [hxa]
        exact strLeChars_refl a.data
      | cons b t' =>
        have hmem0 : d0 ∈ (a :: b :: t').filter (fun x => strLe x today) :=
          List.mem_filter.mpr ⟨hd0m, hd0le⟩
        have hfne : ((a :: b :: t').filter (fun x => strLe x today)) ≠ [] := by
          intro h
          rw [h] at hmem0
          exact absurd hmem0 (List.not_mem_nil d0)
        have hcond :
            ¬ ((((a :: b :: t').filter (fun x => strLe x today)).length == 0) = true) := by
          intro h
          exact hfne (List.length_eq_zero.mp (by simpa using h))
        rw [show extractBestDate today (a :: b :: t') =
            (if ((a :: b :: t').filter (fun x => strLe x today)).length == 0
             then (a :: b :: t').head?
             else (((a :: b :: t').filter
               (fun x => strLe x today)).insertionSort strLeP).reverse.head?)
          from rfl] at hsome
        rw [if_neg hcond, List.head?_reverse] at hsome
        have hdmemS : d ∈ ((a :: b :: t').filter
            (fun x => strLe x today)).insertionSort strLeP :=
          List.mem_of_getLast?_eq_some hsome
        have hdmemF : d ∈ (a :: b :: t').filter (fun x => strLe x today) :=
          (List.perm_insertionSort strLeP _).mem_iff.mp hdmemS
        obtain ⟨hdm, hdle⟩ := List.mem_filter.mp hdmemF
        refine ⟨hdm, hdle, ?_⟩
        intro x hxm hxle
        have hxS : x ∈ ((a :: b :: t').filter
            (fun x => strLe x today)).insertionSort strLeP :=
          (List.perm_insertionSort strLeP _).mem_iff.mpr
            (List.mem_filter.mpr ⟨hxm, hxle⟩)
        exact sorted_strLe_getLast _ d (List.sorted_insertionSort strLeP _)
          hsome x hxS
  · intro today dates hall
    cases dates with
    | nil => rfl
    | cons a t =>
      cases t with
      | nil => rfl
      | cons b t' =>
        have hfe : ((a :: b :: t').filter (fun x => strLe x today)) = [] :=
          List.filter_eq_nil_iff.mpr (fun x hx => by rw [hall x hx]; simp)
        rw [show extractBestDate today (a :: b :: t') =
            (if ((a :: b :: t').filter (fun x => strLe x today)).length == 0
             then (a :: b :: t').head?
             else (((a :: b :: t').filter
               (fun x => strLe x today)).insertionSort strLeP).reverse.head?)
          from rfl]
        rw [hfe]
        rfl
  · intro t
    unfold v3DateField
    cases extractAllDates_v3 t <;> rfl

/-- C2 witness: the selection property instantiated on two past dates with
today `2025-10-12`: the returned date `2024-05-05` is a found date not after
today and dominates every found date not after today. -/
theorem dateSelection_v1_most_recent_v3_first_witness :
    "2024-05-05" ∈ ["2021-01-01", "2024-05-05"] ∧
    strLe "2024-05-05" "2025-10-12" = true ∧
    ∀ x ∈ ["2021-01-01", "2024-05-05"], strLe x "2025-10-12" = true →
      strLe x "2024-05-05" = true :=
  dateSelection_v1_most_recent_v3_first.1 "2025-10-12" "2024-05-05"
    ["2021-01-01", "2024-05-05"] (by decide) ⟨"2021-01-01", by decide, by decide⟩

/-- C2 counterexample: on text containing the past dates `01.01.2021` and
`05.05.2024`, the v1 selector `extractBestDate` (today `2025-10-12`) picks
the most recent past date `2024-05-05`, but the `part_000` pipeline returns
the first found date `2021-01-01` — so its date field does not follow the
most-recent-not-future rule. -/
theorem dateSelection_not_most_recent_counterexample :
    extractAllDates_v3 "01.01.2021 05.05.2024" = ["2021-01-01", "2024-05-05"] ∧
    strLe "2021-01-01" "2025-10-12" = true ∧
    strLe "2024-05-05" "2025-10-12" = true ∧
    extractBestDate "2025-10-12" (extractAllDates_v3 "01.01.2021 05.05.2024") =
      some "2024-05-05" ∧
    v3DateField "01.01.2021 05.05.2024" = some "2021-01-01" ∧
    v3DateField "01.01.2021 05.05.2024" ≠
      extractBestDate "2025-10-12" (extractAllDates_v3 "01.01.2021 05.05.2024") := by
  refine ⟨by decide, by decide, by decide, by decide, by decide, by decide⟩

/-! ### C3 -/

/-- C3 (amended): `saveLearnedMerchant` (identical in both files) and the
`part_001` `clearLearnedMerchants` never propagate a storage-layer
exception, whatever the behaviour of `get`/`set`/`remove`; the `part_000`
`clearLearnedMerchants` has no handler — see the counterexample. -/
theorem learningStore_save_and_clear_v2_never_throw :
    ∀ (s : KVStore) (name category now : String),
      (saveLearnedMerchant s name category now).isOk = true ∧
        (clearLearnedMerchants_v2 s).isOk = true := by
  intro s name category now
  constructor
  · unfold saveLearnedMerchant
    cases saveLearnedMerchantBody s name category now <;> rfl
  · unfold clearLearnedMerchants_v2
    cases s.removeItem <;> rfl

/-- C3 counterexample: when `removeItem` throws, the `part_000`
`clearLearnedMerchants` propagates the exception to its caller. -/
theorem clearLearnedMerchants_v3_propagates_counterexample :
    clearLearnedMerchants_v3 ⟨some [], false, false, true⟩ = .error () ∧
    (clearLearnedMerchants_v3 ⟨some [], false, false, true⟩).isOk = false := by
  exact ⟨rfl, rfl⟩

/-! ### C7 -/

/-- Every date string emitted by `part_000` `extractAllDates` is the
rendering of a triple that passed the validity filter. -/
theorem extractAllDates_v3_valid {text s : String}
    (h : s ∈ extractAllDates_v3 text) :
    ∃ t : YMD, validDate t = true ∧ s = formatDate t := by
  unfold extractAllDates_v3 at h
  obtain ⟨c, _, hc⟩ := List.mem_filterMap.mp (mem_jsSetDedup h)
  by_cases hv : validDate (processDateMatch_v3 c) = true
  · rw [if_pos hv] at hc
    exact ⟨processDateMatch_v3 c, hv, (Option.some.inj hc).symm⟩
  · rw [if_neg hv] at hc
    exact Option.noConfusion hc

/-- Every date string emitted by one `tryDatePattern` step of
`nativeOCR.ts` `extractDate` passed the validity filter. -/
theorem tryDatePattern_valid {st : Option Char → List Char → Option (DateCaps × Nat)}
    {proc : DateCaps → YMD} {text s : String}
    (h : tryDatePattern st proc text = some s) :
    ∃ t : YMD, validDate t = true ∧ s = formatDate t := by
  unfold tryDatePattern at h
  rcases hf : runFindFirst st text with _ | c <;> simp only [hf] at h
  · exact Option.noConfusion h
  · by_cases hv : validDate (proc c) = true
    · rw [if_pos hv] at h
      exact ⟨proc c, hv, (Option.some.inj h).symm⟩
    · rw [if_neg hv] at h
      exact Option.noConfusion h

/-- Every date string returned by `nativeOCR.ts` `extractDate` passed the
validity filter, whichever pattern produced it. -/
theorem extractDate_native_valid {text s : String}
    (h : extractDate_native text = some s) :
    ∃ t : YMD, validDate t = true ∧ s = formatDate t := by
  unfold extractDate_native at h
  rcases h1 : tryDatePattern (numericDateStep isDateSep2 4 false false)
      processNumericDate text with _ | r
  · simp only [h1] at h
    rcases h2 : tryDatePattern (numericDateStep isDateSep2 2 false true)
        processNumericDate text with _ | r
    · simp only [h2] at h
      rcases h3 : tryDatePattern (isoDateStep false) processIsoDate text with _ | r
      · simp only [h3] at h
        rcases h4 : tryDatePattern (numericDateStep (fun c => c == '/') 4 false false)
            processNumericDate text with _ | r
        · simp only [h4] at h
          exact tryDatePattern_valid h
        · simp only [h4] at h
          cases h
          exact tryDatePattern_valid h4
      · simp only [h3] at h
        cases h
        exact tryDatePattern_valid h3
    · simp only [h2] at h
      cases h
      exact tryDatePattern_valid h2
  · simp only [h1] at h
    cases h
    exact tryDatePattern_valid h1

/-- C7: every date the extractors return has month in `[1, 12]`, day in
`[1, 31]` and year in `[2020, 2030]` (and nothing more is checked: the
day-31 February date is accepted); a date parsing outside the year window,
such as `15/03/2035`, is silently dropped. -/
theorem dateValidation_bounds_and_window :
    (∀ text s : String, s ∈ extractAllDates_v3 text →
      ∃ t : YMD, validDate t = true ∧ s = formatDate t) ∧
    (∀ t : YMD, validDate t = true →
      1 ≤ t.month ∧ t.month ≤ 12 ∧ 1 ≤ t.day ∧ t.day ≤ 31 ∧
        2020 ≤ t.year ∧ t.year ≤ 2030) ∧
    (∀ text s : String, extractDate_native text = some s →
      ∃ t : YMD, validDate t = true ∧ s = formatDate t) ∧
    extractAllDates_v3 "Date: 15/03/2035" = [] ∧
    extractDate_native "Date: 15/03/2035" = none ∧
    extractAllDates_v3 "31.02.2025" = ["2025-02-31"] := by
  refine ⟨fun _ _ h => extractAllDates_v3_valid h, ?_, ?_, by decide, by decide, by decide⟩
  · intro t h
    unfold validDate at h
    simp only [Bool.and_eq_true, decide_eq_true_eq] at h
    omega
  · exact fun text s h => extractDate_native_valid h

/-- C7 witness: the permissive filter accepts `31.02.2025` (no month-length
check), and the theorem instantiates to its validity. -/
theorem dateValidation_bounds_and_window_witness :
    ∃ t : YMD, validDate t = true ∧ "2025-02-31" = formatDate t :=
  dateValidation_bounds_and_window.1 "31.02.2025" "2025-02-31" (by decide)

/-! ### C9 -/

/-- C9: in the scan pipeline of `nativeOCR.ts`, a top-region confidence
below 60 nulls out the merchant name; at 60 or above the extracted merchant
candidate is passed through unchanged. -/
theorem scanReceipt_confidence_gating :
    ∀ (ocr : RegionOCRResult) (usedNative : Bool),
      (ocr.top.confidence < 60 →
        (scanReceiptAssemble ocr usedNative).merchantName = none) ∧
      (60 ≤ ocr.top.confidence →
        (scanReceiptAssemble ocr usedNative).merchantName =
          extractMerchant_native ocr.top) := by
  intro ocr b
  constructor
  · intro h
    unfold scanReceiptAssemble
    simp only [ge_iff_le]
    rw [if_neg (not_le.mpr h)]
  · intro h
    unfold scanReceiptAssemble
    simp only [ge_iff_le]
    rw [if_pos h]

/-- C9 witness: with a concrete top region at confidence 50 the merchant is
nulled out. -/
theorem scanReceipt_confidence_gating_witness :
    (scanReceiptAssemble ⟨"", 80, ⟨"STARBUCKS STORE", 50, []⟩, ⟨"", 0, []⟩, ⟨"", 0, []⟩⟩
      false).merchantName = none :=
  (scanReceipt_confidence_gating
    ⟨"", 80, ⟨"STARBUCKS STORE", 50, []⟩, ⟨"", 0, []⟩, ⟨"", 0, []⟩⟩ false).1 (by decide)

/-! ### C10 -/

/-- C10: in the `part_000` classifier, a null or empty merchant name makes
the first learned entry match immediately (`learned.name.includes('')` is
true), so its category is returned at high confidence whatever the text. -/
theorem suggestCategory_v3_empty_merchant_first_learned :
    ∀ (e : LearnedMerchant) (rest : List LearnedMerchant) (text : String),
      suggestCategory_v3 (e :: rest) text none = (some e.category, Confidence.high) ∧
      suggestCategory_v3 (e :: rest) text (some "") = (some e.category, Confidence.high) := by
  intro e rest text
  have hinc : jsIncludes e.name (jsToLower "") = true := by
    simpa [jsIncludes, jsToLower] using listIncludes_nil e.name.data
  constructor <;>
    simp [suggestCategory_v3, learnedScan_v3, Option.getD, hinc]

/-! ### C8 -/

/-- The learned-merchant loop of `part_000` returns the category of the
first entry matched by the three-way test. -/
theorem learnedScan_v3_eq_find (tl ml : String) :
    ∀ l : List LearnedMerchant,
      learnedScan_v3 tl ml l =
        (l.find? (learnedMatch_v3 tl ml)).map (fun m => m.category) := by
  intro l
  induction l with
  | nil => rfl
  | cons m rest ih =>
    cases ha : jsIncludes ml m.name <;> cases hb : jsIncludes m.name ml <;>
      cases hc : jsIncludes tl m.name <;>
        simp [learnedScan_v3, List.find?, learnedMatch_v3, ha, hb, hc, ih]

/-- The learned-merchant loop of `part_001` returns the category of the
first entry matched by the two-way test. -/
theorem learnedScan_v2_eq_find (tl ml : String) :
    ∀ l : List LearnedMerchant,
      learnedScan_v2 tl ml l =
        (l.find? (learnedMatch_v2 tl ml)).map (fun m => m.category) := by
  intro l
  induction l with
  | nil => rfl
  | cons m rest ih =>
    cases ha : jsIncludes ml m.name <;> cases hc : jsIncludes tl m.name <;>
      simp [learnedScan_v2, List.find?, learnedMatch_v2, ha, hc, ih]

/-- C8 (amended): whenever some learned entry matches, each classifier
returns the category of the first matching entry at high confidence,
bypassing the built-in table and the keyword fallback entirely.  In
`part_000` the per-entry test is "name in merchant, or merchant in name, or
name in text" (`learnedMatch_v3`); in `part_001` the "merchant in name"
direction is absent (`learnedMatch_v2`) — the claim as stated fails there,
see the counterexample. -/
theorem suggestCategory_learned_precedence :
    (∀ (learned : List LearnedMerchant) (text : String) (merchantName : Option String)
        (e : LearnedMerchant),
      learned.find? (learnedMatch_v3 (jsToLower text) (jsToLower (merchantName.getD ""))) =
          some e →
      suggestCategory_v3 learned text merchantName = (some e.category, Confidence.high)) ∧
    (∀ (learned : List LearnedMerchant) (text : String) (merchantName : Option String)
        (e : LearnedMerchant),
      learned.find? (learnedMatch_v2 (jsToLower text) (jsToLower (merchantName.getD ""))) =
          some e →
      suggestCategory_v2 learned text merchantName = (some e.category, Confidence.high)) := by
  constructor <;> intro learned text mn e hfind
  · unfold suggestCategory_v3
    rw [learnedScan_v3_eq_find, hfind]
    rfl
  · unfold suggestCategory_v2
    rw [learnedScan_v2_eq_find, hfind]
    rfl

/-- C8 witness: the spec's own example — a learned `joe's diner` entry wins
at high confidence on text mentioning Joe's Diner. -/
theorem suggestCategory_learned_precedence_witness :
    suggestCategory_v3 [⟨"joe's diner", "Custom Food", 3, "2026-01-01"⟩]
      "Visit Joe's Diner today" (some "Joe's Diner") = (some "Custom Food", Confidence.high) :=
  suggestCategory_learned_precedence.1 [⟨"joe's diner", "Custom Food", 3, "2026-01-01"⟩]
    "Visit Joe's Diner today" (some "Joe's Diner")
    ⟨"joe's diner", "Custom Food", 3, "2026-01-01"⟩ (by decide)

/-- C8 counterexample: a learned entry whose name contains the merchant name
(but does not occur in the text) matches in `part_000` and returns its
category at high confidence, but `part_001` misses it and falls through to
`(null, low)`. -/
theorem suggestCategory_v2_contains_direction_counterexample :
    learnedMatch_v3 (jsToLower "zzz") (jsToLower "zzz")
        ⟨"zzz qqq", "Custom Food", 2, "2026-01-01"⟩ = true ∧
    suggestCategory_v3 [⟨"zzz qqq", "Custom Food", 2, "2026-01-01"⟩] "zzz" (some "zzz") =
      (some "Custom Food", Confidence.high) ∧
    suggestCategory_v2 [⟨"zzz qqq", "Custom Food", 2, "2026-01-01"⟩] "zzz" (some "zzz") =
      (none, Confidence.low) ∧
    suggestCategory_v2 [⟨"zzz qqq", "Custom Food", 2, "2026-01-01"⟩] "zzz" (some "zzz") ≠
      (some "Custom Food", Confidence.high) := by
  refine ⟨by decide, by decide, by decide, by decide⟩

/-! ### C6 -/

/-- Bounds of the range filter applied when an amount is pushed. -/
theorem rangeFilter_mem {parse : String → Option Dec} {tokens : List String} {v : Dec}
    (h : v ∈ tokens.filterMap (fun t =>
      match parse t with
      | some num =>
        if Dec.lt dec0 num ∧ Dec.lt num (mkDec 100000 0) then some num else none
      | none => none)) :
    Dec.lt dec0 v ∧ Dec.lt v (mkDec 100000 0) := by
  obtain ⟨t, _, hf⟩ := List.mem_filterMap.mp h
  rcases hp : parse t with _ | num <;> simp only [hp] at hf
  · exact Option.noConfusion hf
  · by_cases hb : Dec.lt dec0 num ∧ Dec.lt num (mkDec 100000 0)
    · rw [if_pos hb] at hf
      cases hf
      exact hb
    · rw [if_neg hb] at hf
      exact Option.noConfusion hf

/-- The dedup-then-sort tail of both `extractAllAmounts` implementations
preserves freedom from duplicates, sortedness and any elementwise bound. -/
theorem amountsPipeline_props (amounts : List Dec) :
    ((jsSetDedup amounts).insertionSort decDesc).Nodup ∧
      List.Sorted decDesc ((jsSetDedup amounts).insertionSort decDesc) ∧
      ∀ v ∈ (jsSetDedup amounts).insertionSort decDesc, v ∈ amounts := by
  refine ⟨?_, List.sorted_insertionSort decDesc _, ?_⟩
  · exact (List.perm_insertionSort decDesc _).nodup_iff.mpr (nodup_jsSetDedup _)
  · intro v hv
    exact mem_jsSetDedup ((List.perm_insertionSort decDesc _).mem_iff.mp hv)

/-- C6: for every token list the `allAmounts` sequences built by `part_000`
and `part_001` are duplicate-free, sorted descending, and contain only
values strictly between 0 and 100000. -/
theorem extractAllAmounts_nodup_sorted_bounded :
    ∀ tokens : List String,
      ((extractAllAmountsCore_v3 tokens).Nodup ∧
        List.Sorted decDesc (extractAllAmountsCore_v3 tokens) ∧
        ∀ v ∈ extractAllAmountsCore_v3 tokens,
          Dec.lt dec0 v ∧ Dec.lt v (mkDec 100000 0)) ∧
      ((extractAllAmountsCore_v2 tokens).Nodup ∧
        List.Sorted decDesc (extractAllAmountsCore_v2 tokens) ∧
        ∀ v ∈ extractAllAmountsCore_v2 tokens,
          Dec.lt dec0 v ∧ Dec.lt v (mkDec 100000 0)) := by
  intro tokens
  constructor
  · obtain ⟨hn, hs, hmem⟩ := amountsPipeline_props (tokens.filterMap (fun t =>
      match parseAmountToken_v3 t with
      | some num =>
        if Dec.lt dec0 num ∧ Dec.lt num (mkDec 100000 0) then some num else none
      | none => none))
    exact ⟨hn, hs, fun v hv => rangeFilter_mem (hmem v hv)⟩
  · obtain ⟨hn, hs, hmem⟩ := amountsPipeline_props (tokens.filterMap (fun t =>
      match parseAmountToken_native t with
      | some num =>
        if Dec.lt dec0 num ∧ Dec.lt num (mkDec 100000 0) then some num else none
      | none => none))
    exact ⟨hn, hs, fun v hv => rangeFilter_mem (hmem v hv)⟩

/-- C6 witness: on a concrete token list containing a duplicate, the value
`45.99` is in range by the theorem. -/
theorem extractAllAmounts_nodup_sorted_bounded_witness :
    Dec.lt dec0 (mkDec 4599 2) ∧ Dec.lt (mkDec 4599 2) (mkDec 100000 0) :=
  ((extractAllAmounts_nodup_sorted_bounded ["45,99", "45,99", "1.234,56"]).1).2.2
    (mkDec 4599 2) (by decide)

/-! ### C5 -/

/-- Digit characters are digits. -/
theorem dchar_isDigit : ∀ d : Fin 10, (dchar d).isDigit = true := by decide

/-- Digit characters are not whitespace. -/
theorem dchar_not_ws : ∀ d : Fin 10, isJsWhitespace (dchar d) = false := by decide

/-- Digit characters are not the dot separator. -/
theorem dchar_ne_dot : ∀ d : Fin 10, dchar d ≠ '.' := by decide

/-- Digit characters are not the comma separator. -/
theorem dchar_ne_comma : ∀ d : Fin 10, dchar d ≠ ',' := by decide

/-- The `parseFloat` digit-value step recovers the digit. -/
theorem dchar_toNat_sub : ∀ d : Fin 10, (dchar d).toNat - '0'.toNat = d.val := by decide

/-- No dot occurs in a digit segment. -/
theorem not_mem_dstr_dot (a : List (Fin 10)) : '.' ∉ dstr a := by
  intro h
  obtain ⟨d, _, hd⟩ := List.mem_map.mp h
  exact dchar_ne_dot d hd

/-- No comma occurs in a digit segment. -/
theorem not_mem_dstr_comma (a : List (Fin 10)) : ',' ∉ dstr a := by
  intro h
  obtain ⟨d, _, hd⟩ := List.mem_map.mp h
  exact dchar_ne_comma d hd

/-- Absence from both parts of an append-around-a-cons. -/
theorem not_mem_append_cons {c x : Char} {l1 l2 : List Char}
    (h1 : c ∉ l1) (h2 : c ∉ l2) (hx : c ≠ x) : c ∉ l1 ++ x :: l2 := by
  simp [List.mem_append, List.mem_cons, h1, h2, hx]

/-- Digit segments contain no whitespace. -/
theorem dstr_no_ws (a : List (Fin 10)) : ∀ x ∈ dstr a, isJsWhitespace x = false := by
  intro x hx
  obtain ⟨d, _, rfl⟩ := List.mem_map.mp hx
  exact dchar_not_ws d

/-- Whitespace stripping is the identity on whitespace-free tokens. -/
theorem stripSpaces_eq_self {l : List Char} (h : ∀ x ∈ l, isJsWhitespace x = false) :
    stripSpaces l = l :=
  List.filter_eq_self.mpr (fun a ha => by simp [h a ha])

/-- `lastIndexOf` of an absent character is `-1`. -/
theorem lastIndexOfChar_neg {c : Char} : ∀ {l : List Char}, c ∉ l → lastIndexOfChar c l = -1 := by
  intro l
  induction l with
  | nil => intro _; rfl
  | cons x t ih =>
    intro h
    rw [List.mem_cons, not_or] at h
    have hx : (x == c) = false := beq_eq_false_iff_ne.mpr (Ne.symm h.1)
    simp [lastIndexOfChar, ih h.2, hx]

/-- `lastIndexOf` finds the last occurrence. -/
theorem lastIndexOfChar_append_cons {c : Char} {l2 : List Char} (h : c ∉ l2) :
    ∀ l1 : List Char, lastIndexOfChar c (l1 ++ c :: l2) = l1.length := by
  intro l1
  induction l1 with
  | nil => simp [lastIndexOfChar, lastIndexOfChar_neg h]
  | cons x t ih =>
    simp only [List.cons_append, lastIndexOfChar, List.append_eq, ih, List.length_cons]
    rw [if_pos (Int.ofNat_nonneg _)]
    push_cast
    ring

/-- Removing an absent character is the identity. -/
theorem removeAllChar_eq_self {c : Char} {l : List Char} (h : c ∉ l) :
    removeAllChar c l = l :=
  List.filter_eq_self.mpr (fun a ha => by
    have : a ≠ c := fun e => h (e ▸ ha)
    simp [this])

/-- Removal distributes over append. -/
theorem removeAllChar_append (c : Char) (l1 l2 : List Char) :
    removeAllChar c (l1 ++ l2) = removeAllChar c l1 ++ removeAllChar c l2 :=
  List.filter_append _ _

/-- Removal drops a head occurrence. -/
theorem removeAllChar_cons_self (c : Char) (l : List Char) :
    removeAllChar c (c :: l) = removeAllChar c l := by
  simp [removeAllChar, List.filter_cons]

/-- Removal keeps a differing head. -/
theorem removeAllChar_cons_ne {c x : Char} (h : x ≠ c) (l : List Char) :
    removeAllChar c (x :: l) = x :: removeAllChar c l := by
  simp [removeAllChar, List.filter_cons, h]

/-- Replacing the first occurrence walks over a prefix free of it. -/
theorem replaceFirstChar_append_cons {c : Char} (d : Char) {l1 : List Char}
    (h : c ∉ l1) (l2 : List Char) :
    replaceFirstChar c d (l1 ++ c :: l2) = l1 ++ d :: l2 := by
  induction l1 with
  | nil => simp [replaceFirstChar]
  | cons x t ih =>
    rw [List.mem_cons, not_or] at h
    have hx : (x == c) = false := beq_eq_false_iff_ne.mpr (Ne.symm h.1)
    simp [replaceFirstChar, hx, ih h.2]

/-- Splitting a separator-free list yields a single part. -/
theorem jsSplitChar_not_mem {sep : Char} : ∀ {l : List Char}, sep ∉ l →
    jsSplitChar sep l = [l] := by
  intro l
  induction l with
  | nil => intro _; rfl
  | cons x t ih =>
    intro h
    rw [List.mem_cons, not_or] at h
    have hx : (x == sep) = false := beq_eq_false_iff_ne.mpr (Ne.symm h.1)
    simp [jsSplitChar, hx, ih h.2]

/-- Splitting at the only separator yields the two surrounding parts. -/
theorem jsSplitChar_append_cons {sep : Char} {l1 : List Char} (h : sep ∉ l1)
    (l2 : List Char) :
    jsSplitChar sep (l1 ++ sep :: l2) = l1 :: jsSplitChar sep l2 := by
  induction l1 with
  | nil => simp [jsSplitChar]
  | cons x t ih =>
    rw [List.mem_cons, not_or] at h
    have hx : (x == sep) = false := beq_eq_false_iff_ne.mpr (Ne.symm h.1)
    simp only [List.cons_append, jsSplitChar, hx, List.append_eq]
    rw [ih h.2]
    simp

/-- The digit span consumes a whole digit segment up to a non-digit rest. -/
theorem spanDigits_dstr (a : List (Fin 10)) {r : List Char}
    (hr : spanDigits r = ([], r)) : spanDigits (dstr a ++ r) = (dstr a, r) := by
  induction a with
  | nil => simpa using hr
  | cons d t ih =>
    simp only [dstr, List.map_cons, List.cons_append]
    simp only [dstr] at ih
    simp [spanDigits, dchar_isDigit d, ih]

/-- The digit span stops at a dot. -/
theorem spanDigits_dot (l : List Char) : spanDigits ('.' :: l) = ([], '.' :: l) := by
  simp [spanDigits]

/-- The digit span of the empty list. -/
theorem spanDigits_nil : spanDigits ([] : List Char) = ([], []) := rfl

/-- `natOfDigits` agrees with `digitsVal` on rendered digit segments. -/
theorem natOfDigits_dstr_aux :
    ∀ (l : List (Fin 10)) (n : Nat),
      List.foldl (fun n c => 10 * n + (c.toNat - '0'.toNat)) n (dstr l) =
        List.foldl (fun n d => 10 * n + d.val) n l := by
  intro l
  induction l with
  | nil => intro n; rfl
  | cons d t ih =>
    intro n
    simp only [dstr, List.map_cons, List.foldl_cons, dchar_toNat_sub d]
    exact ih _

/-- `natOfDigits` agrees with `digitsVal` on rendered digit segments. -/
theorem natOfDigits_dstr (l : List (Fin 10)) : natOfDigits (dstr l) = digitsVal l :=
  natOfDigits_dstr_aux l 0

/-- A nonempty digit segment renders nonempty. -/
theorem dstr_ne_nil {a : List (Fin 10)} (ha : a ≠ []) : dstr a ≠ [] := by
  cases a with
  | nil => exact absurd rfl ha
  | cons d t => simp [dstr]

/-- Rendering a digit segment preserves its length. -/
theorem dstr_length (l : List (Fin 10)) : (dstr l).length = l.length := by
  simp [dstr]

/-- `parseFloat` of `digits.digits`. -/
theorem jsParseFloat_int_frac (a c : List (Fin 10)) (ha : a ≠ []) :
    jsParseFloat (dstr a ++ '.' :: dstr c) =
      some (mkDec (digitsVal a * 10 ^ c.length + digitsVal c) c.length) := by
  have h1 : spanDigits (dstr a ++ '.' :: dstr c) = (dstr a, '.' :: dstr c) :=
    spanDigits_dstr a (spanDigits_dot _)
  have h2 : spanDigits (dstr c) = (dstr c, []) := by
    simpa using spanDigits_dstr c spanDigits_nil
  simp [jsParseFloat, h1, h2, dstr_ne_nil ha, natOfDigits_dstr, dstr_length]

/-- `parseFloat` of a pure digit run. -/
theorem jsParseFloat_int (a : List (Fin 10)) (ha : a ≠ []) :
    jsParseFloat (dstr a) = some (mkDec (digitsVal a) 0) := by
  have h1 : spanDigits (dstr a) = (dstr a, []) := by
    simpa using spanDigits_dstr a spanDigits_nil
  simp [jsParseFloat, h1, dstr_ne_nil ha, natOfDigits_dstr]

/-- US-format branch of the `part_000` token normalisation: with the dot
last, all commas are stripped. -/
theorem sepNormalize_v3_us (a b c : List (Fin 10)) :
    sepNormalize_v3 (dstr a ++ ',' :: dstr b ++ '.' :: dstr c) =
      dstr (a ++ b) ++ '.' :: dstr c := by
  have hdotmem : '.' ∈ dstr a ++ ',' :: dstr b ++ '.' :: dstr c := by simp
  have hcommamem : ',' ∈ dstr a ++ ',' :: dstr b ++ '.' :: dstr c := by simp
  have hnc : ',' ∉ dstr b ++ '.' :: dstr c :=
    not_mem_append_cons (not_mem_dstr_comma b) (not_mem_dstr_comma c) (by decide)
  have hassoc : dstr a ++ ',' :: dstr b ++ '.' :: dstr c =
      dstr a ++ ',' :: (dstr b ++ '.' :: dstr c) := by simp
  have hc : lastIndexOfChar ',' (dstr a ++ ',' :: dstr b ++ '.' :: dstr c) =
      (dstr a).length := by
    rw [hassoc]
    exact lastIndexOfChar_append_cons hnc _
  have hd : lastIndexOfChar '.' (dstr a ++ ',' :: dstr b ++ '.' :: dstr c) =
      (dstr a ++ ',' :: dstr b).length :=
    lastIndexOfChar_append_cons (not_mem_dstr_dot c) _
  unfold sepNormalize_v3
  rw [if_pos (by simp [hdotmem, hcommamem])]
  rw [if_neg (by
    rw [hc, hd]
    simp only [List.length_append, List.length_cons]
    omega)]
  rw [removeAllChar_append, removeAllChar_append,
    removeAllChar_eq_self (not_mem_dstr_comma a), removeAllChar_cons_self,
    removeAllChar_eq_self (not_mem_dstr_comma b),
    removeAllChar_cons_ne (by decide), removeAllChar_eq_self (not_mem_dstr_comma c)]
  simp [dstr]

/-- European-format branch of the `part_000` token normalisation: with the
comma last, dots are stripped and the (only) comma becomes the decimal
point. -/
theorem sepNormalize_v3_eu (a b c : List (Fin 10)) :
    sepNormalize_v3 (dstr a ++ '.' :: dstr b ++ ',' :: dstr c) =
      dstr (a ++ b) ++ '.' :: dstr c := by
  have hdotmem : '.' ∈ dstr a ++ '.' :: dstr b ++ ',' :: dstr c := by simp
  have hcommamem : ',' ∈ dstr a ++ '.' :: dstr b ++ ',' :: dstr c := by simp
  have hnd : '.' ∉ dstr b ++ ',' :: dstr c :=
    not_mem_append_cons (not_mem_dstr_dot b) (not_mem_dstr_dot c) (by decide)
  have hassoc : dstr a ++ '.' :: dstr b ++ ',' :: dstr c =
      dstr a ++ '.' :: (dstr b ++ ',' :: dstr c) := by simp
  have hd : lastIndexOfChar '.' (dstr a ++ '.' :: dstr b ++ ',' :: dstr c) =
      (dstr a).length := by
    rw [hassoc]
    exact lastIndexOfChar_append_cons hnd _
  have hc : lastIndexOfChar ',' (dstr a ++ '.' :: dstr b ++ ',' :: dstr c) =
      (dstr a ++ '.' :: dstr b).length :=
    lastIndexOfChar_append_cons (not_mem_dstr_comma c) _
  have hnab : ',' ∉ dstr a ++ dstr b := by
    simp [List.mem_append, not_mem_dstr_comma a, not_mem_dstr_comma b]
  unfold sepNormalize_v3
  rw [if_pos (by simp [hdotmem, hcommamem])]
  rw [if_pos (by
    rw [hc, hd]
    simp only [List.length_append, List.length_cons]
    omega)]
  rw [removeAllChar_append, removeAllChar_append,
    removeAllChar_eq_self (not_mem_dstr_dot a), removeAllChar_cons_self,
    removeAllChar_eq_self (not_mem_dstr_dot b),
    removeAllChar_cons_ne (by decide), removeAllChar_eq_self (not_mem_dstr_dot c)]
  rw [replaceFirstChar_append_cons '.' hnab]
  simp [dstr]

/-- Comma-only branch with exactly two digits after the comma: the comma
becomes the decimal point. -/
theorem sepNormalize_v3_comma_dec (a c : List (Fin 10)) (hlen : c.length = 2) :
    sepNormalize_v3 (dstr a ++ ',' :: dstr c) = dstr a ++ '.' :: dstr c := by
  have hnodot : '.' ∉ dstr a ++ ',' :: dstr c :=
    not_mem_append_cons (not_mem_dstr_dot a) (not_mem_dstr_dot c) (by decide)
  have hcommamem : ',' ∈ dstr a ++ ',' :: dstr c := by simp
  unfold sepNormalize_v3
  rw [if_neg (by simp [hnodot])]
  rw [if_pos (by simp [hcommamem])]
  rw [jsSplitChar_append_cons (not_mem_dstr_comma a),
    jsSplitChar_not_mem (not_mem_dstr_comma c)]
  have hlen2 : ((dstr c).length == 2) = true := by
    simp [dstr, hlen]
  simp only [hlen2, if_pos]
  exact replaceFirstChar_append_cons '.' (not_mem_dstr_comma a) _

/-- Comma-only branch with a fraction of another width: the comma is
stripped as a thousands separator. -/
theorem sepNormalize_v3_comma_thousands (a c : List (Fin 10)) (hlen : c.length ≠ 2) :
    sepNormalize_v3 (dstr a ++ ',' :: dstr c) = dstr (a ++ c) := by
  have hnodot : '.' ∉ dstr a ++ ',' :: dstr c :=
    not_mem_append_cons (not_mem_dstr_dot a) (not_mem_dstr_dot c) (by decide)
  have hcommamem : ',' ∈ dstr a ++ ',' :: dstr c := by simp
  unfold sepNormalize_v3
  rw [if_neg (by simp [hnodot])]
  rw [if_pos (by simp [hcommamem])]
  rw [jsSplitChar_append_cons (not_mem_dstr_comma a),
    jsSplitChar_not_mem (not_mem_dstr_comma c)]
  have hlen2 : ((dstr c).length == 2) = false := by
    simp [dstr, hlen]
  simp only [hlen2]
  rw [if_neg (by simp)]
  rw [removeAllChar_append, removeAllChar_eq_self (not_mem_dstr_comma a),
    removeAllChar_cons_self, removeAllChar_eq_self (not_mem_dstr_comma c)]
  simp [dstr]

/-- Non-whitespace membership over a two-separator token shape. -/
theorem shape2_no_ws {x : Char} {a b c : List (Fin 10)} {s1 s2 : Char}
    (hs1 : isJsWhitespace s1 = false) (hs2 : isJsWhitespace s2 = false)
    (hx : x ∈ dstr a ++ s1 :: dstr b ++ s2 :: dstr c) : isJsWhitespace x = false := by
  simp only [List.mem_append, List.mem_cons] at hx
  rcases hx with (hx | rfl | hx) | rfl | hx
  · exact dstr_no_ws a x hx
  · exact hs1
  · exact dstr_no_ws b x hx
  · exact hs2
  · exact dstr_no_ws c x hx

/-- Non-whitespace membership over a one-separator token shape. -/
theorem shape1_no_ws {x : Char} {a c : List (Fin 10)} {s1 : Char}
    (hs1 : isJsWhitespace s1 = false)
    (hx : x ∈ dstr a ++ s1 :: dstr c) : isJsWhitespace x = false := by
  simp only [List.mem_append, List.mem_cons] at hx
  rcases hx with hx | rfl | hx
  · exact dstr_no_ws a x hx
  · exact hs1
  · exact dstr_no_ws c x hx

/-- C5 (amended): for money tokens with a single occurrence of each
separator present, the `part_000` normalisation treats the separator
occurring last as the decimal point and strips the other (US and European
orders), and treats a lone comma as the decimal point exactly when two
digits follow it, else as a thousands separator; the spec's four examples
parse accordingly, and so does the multi-dot, comma-last token
`1.234.567,89` (every dot is stripped by `replace(/\./g, '')`).  Tokens
repeating the trailing separator deviate from the claim — see the
counterexample.  Digit segments are coded as `List (Fin 10)` and rendered
with `dstr`; `mkDec n k` is the decimal `n / 10 ^ k`. -/
theorem amountNormalization_separator_rules :
    (∀ a b c : List (Fin 10), a ≠ [] →
      parseAmountToken_v3 (String.mk (dstr a ++ ',' :: dstr b ++ '.' :: dstr c)) =
        some (mkDec (digitsVal (a ++ b) * 10 ^ c.length + digitsVal c) c.length)) ∧
    (∀ a b c : List (Fin 10), a ≠ [] →
      parseAmountToken_v3 (String.mk (dstr a ++ '.' :: dstr b ++ ',' :: dstr c)) =
        some (mkDec (digitsVal (a ++ b) * 10 ^ c.length + digitsVal c) c.length)) ∧
    (∀ a c : List (Fin 10), a ≠ [] → c.length = 2 →
      parseAmountToken_v3 (String.mk (dstr a ++ ',' :: dstr c)) =
        some (mkDec (digitsVal a * 10 ^ c.length + digitsVal c) c.length)) ∧
    (∀ a c : List (Fin 10), a ≠ [] → c.length ≠ 2 →
      parseAmountToken_v3 (String.mk (dstr a ++ ',' :: dstr c)) =
        some (mkDec (digitsVal (a ++ c)) 0)) ∧
    parseAmountToken_v3 "1.234,56" = some (mkDec 123456 2) ∧
    parseAmountToken_v3 "1,234.56" = some (mkDec 123456 2) ∧
    parseAmountToken_v3 "45,99" = some (mkDec 4599 2) ∧
    parseAmountToken_v3 "1,234" = some (mkDec 1234 0) ∧
    parseAmountToken_v3 "1.234.567,89" = some (mkDec 123456789 2) ∧
    specAmountValue "1.234.567,89" = some (mkDec 123456789 2) := by
  refine ⟨?_, ?_, ?_, ?_, by decide, by decide, by decide, by decide,
    by decide, by decide⟩
  · intro a b c ha
    unfold parseAmountToken_v3
    rw [show (String.mk (dstr a ++ ',' :: dstr b ++ '.' :: dstr c)).data =
        dstr a ++ ',' :: dstr b ++ '.' :: dstr c from rfl]
    rw [stripSpaces_eq_self (fun x hx => shape2_no_ws (by decide) (by decide) hx),
      sepNormalize_v3_us, jsParseFloat_int_frac _ _ (by simp [ha])]
  · intro a b c ha
    unfold parseAmountToken_v3
    rw [show (String.mk (dstr a ++ '.' :: dstr b ++ ',' :: dstr c)).data =
        dstr a ++ '.' :: dstr b ++ ',' :: dstr c from rfl]
    rw [stripSpaces_eq_self (fun x hx => shape2_no_ws (by decide) (by decide) hx),
      sepNormalize_v3_eu, jsParseFloat_int_frac _ _ (by simp [ha])]
  · intro a c ha hlen
    unfold parseAmountToken_v3
    rw [show (String.mk (dstr a ++ ',' :: dstr c)).data = dstr a ++ ',' :: dstr c from rfl]
    rw [stripSpaces_eq_self (fun x hx => shape1_no_ws (by decide) hx),
      sepNormalize_v3_comma_dec a c hlen, jsParseFloat_int_frac _ _ ha]
  · intro a c ha hlen
    unfold parseAmountToken_v3
    rw [show (String.mk (dstr a ++ ',' :: dstr c)).data = dstr a ++ ',' :: dstr c from rfl]
    rw [stripSpaces_eq_self (fun x hx => shape1_no_ws (by decide) hx),
      sepNormalize_v3_comma_thousands a c hlen, jsParseFloat_int _ (by simp [ha])]

/-- C5 witness: the US rule applied to the segments of `1,234.56`. -/
theorem amountNormalization_separator_rules_witness :
    parseAmountToken_v3 (String.mk (dstr [1] ++ ',' :: dstr [2, 3, 4] ++ '.' :: dstr [5, 6])) =
      some (mkDec (digitsVal ([1] ++ [2, 3, 4]) * 10 ^ ([5, 6] : List (Fin 10)).length +
        digitsVal [5, 6]) ([5, 6] : List (Fin 10)).length) :=
  amountNormalization_separator_rules.1 [1] [2, 3, 4] [5, 6] (by decide)

/-- C5 counterexample: tokens that repeat the trailing separator break the
claim's rule (last separator is the decimal point, all others stripped), in
both orders.  `1,234.567,89` ends in a second comma: the code rewrites only
the first comma (JS `replace(',', '.')`) and `parseFloat` truncates at the
second, producing `1.234567` instead of `1234567.89`.  `1,234.567.89` ends
in a second dot: the code strips the commas only and `parseFloat` truncates
at the second dot, producing `1234.567` instead of `1234567.89` — and this
token is a genuine amount-pattern match, as the scan of
`total 1,234.567.89` shows. -/
theorem amountNormalization_repeated_separator_counterexample :
    ("1,234.567,89".data.contains '.' = true) ∧
    ("1,234.567,89".data.contains ',' = true) ∧
    parseAmountToken_v3 "1,234.567,89" = some (mkDec 1234567 6) ∧
    specAmountValue "1,234.567,89" = some (mkDec 123456789 2) ∧
    parseAmountToken_v3 "1,234.567,89" ≠ specAmountValue "1,234.567,89" ∧
    v3AmountTokens "total 1,234.567.89" = ["1,234.567.89"] ∧
    parseAmountToken_v3 "1,234.567.89" = some (mkDec 1234567 3) ∧
    specAmountValue "1,234.567.89" = some (mkDec 123456789 2) ∧
    parseAmountToken_v3 "1,234.567.89" ≠ specAmountValue "1,234.567.89" := by
  refine ⟨by decide, by decide, by decide, by decide, by decide, by decide,
    by decide, by decide, by decide⟩

/-! ### C4 -/

/-- Lowercasing fixes the all-`a` names. -/
theorem jsToLower_aName (i : Nat) : jsToLower (aName i) = aName i := by
  unfold jsToLower aName
  simp [List.map_replicate, show Char.toLower 'a' = 'a' from by decide]

/-- Dropping whitespace fixes an all-`a` run. -/
theorem dropWhile_ws_replicate (n : Nat) :
    (List.replicate n 'a').dropWhile isJsWhitespace = List.replicate n 'a' := by
  cases n with
  | zero => rfl
  | succ m =>
    rw [List.replicate_succ, List.dropWhile_cons]
    simp [show isJsWhitespace 'a' = false from by decide]

/-- Trimming fixes the all-`a` names. -/
theorem jsTrim_aName (i : Nat) : jsTrim (aName i) = aName i := by
  unfold jsTrim aName
  rw [show (String.mk (List.replicate (i + 1) 'a')).data = List.replicate (i + 1) 'a' from rfl]
  rw [dropWhile_ws_replicate, List.reverse_replicate, dropWhile_ws_replicate,
    List.reverse_replicate]

/-- Normalisation fixes the all-`a` names. -/
theorem normalizeName_aName (i : Nat) : normalizeName (aName i) = aName i := by
  unfold normalizeName
  rw [jsToLower_aName, jsTrim_aName]

/-- The all-`a` names are pairwise distinct. -/
theorem aName_inj {i j : Nat} (h : aName i = aName j) : i = j := by
  have hl := congrArg (fun s => s.data.length) h
  simp only [aName, List.length_replicate] at hl
  omega

/-- With a reliable `get`, the stored collection is the cell's contents. -/
theorem getLearnedMerchants_eq {s : KVStore} (h : s.getFails = false) :
    getLearnedMerchants s = s.value.getD [] := by
  unfold getLearnedMerchants KVStore.getItem
  rw [h]
  cases s.value <;> rfl

/-- One fresh correction: the flags persist, names stay within the enlarged
family, and the stored length grows by one up to the cap. -/
theorem storeAfterSave_fresh (s : KVStore) (hg : s.getFails = false)
    (hs : s.setFails = false) (k : Nat)
    (hnames : ∀ m ∈ getLearnedMerchants s, ∃ i, i < k ∧ m.name = aName i)
    (cat ts : String) :
    (storeAfterSave s (aName k) cat ts).getFails = false ∧
    (storeAfterSave s (aName k) cat ts).setFails = false ∧
    (∀ m ∈ getLearnedMerchants (storeAfterSave s (aName k) cat ts),
      ∃ i, i < k + 1 ∧ m.name = aName i) ∧
    (getLearnedMerchants (storeAfterSave s (aName k) cat ts)).length =
      min ((getLearnedMerchants s).length + 1) 500 := by
  have hfind : (getLearnedMerchants s).find?
      (sameNormalizedName (normalizeName (aName k))) = none := by
    rw [List.find?_eq_none]
    intro m hm
    obtain ⟨i, hik, hname⟩ := hnames m hm
    unfold sameNormalizedName
    rw [hname, jsToLower_aName, normalizeName_aName]
    intro hbeq
    exact absurd (aName_inj (beq_iff_eq.mp hbeq)) (by omega)
  have hupd : saveUpdatedList s (aName k) cat ts =
      getLearnedMerchants s ++ [⟨normalizeName (aName k), cat, 1, ts⟩] := by
    unfold saveUpdatedList
    simp only [hfind]
  have hafter : storeAfterSave s (aName k) cat ts =
      { s with value := some ((saveSortedList s (aName k) cat ts).take 500) } := by
    unfold storeAfterSave saveLearnedMerchant saveLearnedMerchantBody KVStore.setItem
    simp [hs]
  have hget2 : getLearnedMerchants (storeAfterSave s (aName k) cat ts) =
      (saveSortedList s (aName k) cat ts).take 500 := by
    rw [hafter]
    simp [getLearnedMerchants, KVStore.getItem, hg]
  refine ⟨by rw [hafter]; exact hg, by rw [hafter]; exact hs, ?_, ?_⟩
  · intro m hm
    rw [hget2] at hm
    have hm2 : m ∈ saveSortedList s (aName k) cat ts := List.mem_of_mem_take hm
    have hm3 : m ∈ saveUpdatedList s (aName k) cat ts :=
      (List.perm_insertionSort byUsedDesc _).mem_iff.mp hm2
    rw [hupd] at hm3
    rcases List.mem_append.mp hm3 with hm4 | hm4
    · obtain ⟨i, hik, hname⟩ := hnames m hm4
      exact ⟨i, by omega, hname⟩
    · rcases List.mem_singleton.mp hm4 with rfl
      exact ⟨k, by omega, normalizeName_aName k⟩
  · have hperm : (saveSortedList s (aName k) cat ts).Perm
        (saveUpdatedList s (aName k) cat ts) := List.perm_insertionSort _ _
    rw [hget2, List.length_take, hperm.length_eq, hupd, List.length_append]
    simp only [List.length_singleton]
    omega

/-- A run of fresh corrections, by induction: the stored length is the
number of corrections so far, capped at 500. -/
theorem saveSeq_fresh_length :
    ∀ (n k : Nat) (s : KVStore), s.getFails = false → s.setFails = false →
    (∀ m ∈ getLearnedMerchants s, ∃ i, i < k ∧ m.name = aName i) →
    (getLearnedMerchants s).length = min k 500 →
    (saveSeq ((List.range' k n).map aName) s).getFails = false ∧
    (saveSeq ((List.range' k n).map aName) s).setFails = false ∧
    (∀ m ∈ getLearnedMerchants (saveSeq ((List.range' k n).map aName) s),
      ∃ i, i < k + n ∧ m.name = aName i) ∧
    (getLearnedMerchants (saveSeq ((List.range' k n).map aName) s)).length =
      min (k + n) 500 := by
  intro n
  induction n with
  | zero =>
    intro k s hg hs hnames hlen
    refine ⟨by simpa [saveSeq] using hg, by simpa [saveSeq] using hs, ?_, ?_⟩
    · intro m hm
      simp only [List.range', List.map_nil, saveSeq, List.foldl_nil] at hm
      exact hnames m hm
    · simpa [saveSeq] using hlen
  | succ n ih =>
    intro k s hg hs hnames hlen
    rw [List.range'_succ, List.map_cons]
    rw [show saveSeq (aName k :: (List.range' (k + 1) n).map aName) s =
        saveSeq ((List.range' (k + 1) n).map aName)
          (storeAfterSave s (aName k) "Custom Food" "2026-02-03") from rfl]
    obtain ⟨hg', hs', hnames', hlen'⟩ :=
      storeAfterSave_fresh s hg hs k hnames "Custom Food" "2026-02-03"
    have hlen'' : (getLearnedMerchants
        (storeAfterSave s (aName k) "Custom Food" "2026-02-03")).length =
        min (k + 1) 500 := by
      rw [hlen', hlen]
      omega
    obtain ⟨a1, a2, a3, a4⟩ := ih (k + 1) _ hg' hs' hnames' hlen''
    refine ⟨a1, a2, ?_, ?_⟩
    · intro m hm
      obtain ⟨i, hi, hn⟩ := a3 m hm
      exact ⟨i, by omega, hn⟩
    · rw [a4]
      omega

/-- C4: after a successful `saveLearnedMerchant`, the persisted collection
is the updated collection sorted descending by `timesUsed` and truncated to
500 entries, so it holds at most 500 entries, is sorted descending, and
every truncated entry has `timesUsed` at most that of every kept entry;
and inserting 501 distinct corrections into an empty store leaves exactly
500 entries. -/
theorem saveLearnedMerchant_capacity_sorted_eviction :
    (∀ (s : KVStore) (name category now : String), s.setFails = false →
      (storeAfterSave s name category now).value =
        some ((saveSortedList s name category now).take 500) ∧
      ((saveSortedList s name category now).take 500).length ≤ 500 ∧
      List.Sorted byUsedDesc ((saveSortedList s name category now).take 500) ∧
      (saveSortedList s name category now).Perm (saveUpdatedList s name category now) ∧
      (∀ x ∈ (saveSortedList s name category now).drop 500,
        ∀ y ∈ (saveSortedList s name category now).take 500,
          x.timesUsed ≤ y.timesUsed)) ∧
    ((saveSeq names501 emptyStore).value.getD []).length = 500 := by
  constructor
  · intro s name category now hset
    refine ⟨?_, List.length_take_le _ _, ?_, List.perm_insertionSort _ _, ?_⟩
    · unfold storeAfterSave saveLearnedMerchant saveLearnedMerchantBody KVStore.setItem
      simp [hset]
    · exact List.Pairwise.sublist (List.take_sublist _ _)
        (List.sorted_insertionSort byUsedDesc _)
    · intro x hx y hy
      exact (List.sorted_insertionSort byUsedDesc _).rel_of_mem_take_of_mem_drop hy hx
  · have hnames501 : names501 = (List.range' 0 501).map aName := by
      rw [names501, List.range_eq_range']
    rw [hnames501]
    obtain ⟨hg, _, _, hlen⟩ := saveSeq_fresh_length 501 0 emptyStore rfl rfl
      (by
        intro m hm
        simp [getLearnedMerchants, emptyStore, KVStore.getItem] at hm)
      (by simp [getLearnedMerchants, emptyStore, KVStore.getItem])
    rw [← getLearnedMerchants_eq hg, hlen]
    omega

/-- C4 witness: a concrete reliable store persists the sorted-and-truncated
collection after one save. -/
theorem saveLearnedMerchant_capacity_sorted_eviction_witness :
    (storeAfterSave ⟨some [], false, false, false⟩ "Spar Tirana" "Office Supplies"
      "2026-02-03").value =
      some ((saveSortedList ⟨some [], false, false, false⟩ "Spar Tirana" "Office Supplies"
        "2026-02-03").take 500) :=
  (saveLearnedMerchant_capacity_sorted_eviction.1 ⟨some [], false, false, false⟩
    "Spar Tirana" "Office Supplies" "2026-02-03" rfl).1

end Moniezi
